import Mathlib

/-!
# Verification development for the `deezer_metadata` crate

Shallow embedding of the crate's data model and operations:

* `Json` models `serde_json::Value`.  Numbers are modelled as integers (all
  inputs relevant to the properties below carry integral numerals) and
  objects are field lists with distinct keys kept in source order.
* `Outcome` models the result of running a piece of Rust code that may
  return a value, return a `serde` `Err`, or panic (an `unwrap` failure).
  A panic aborts the calling process, so it propagates through every bind.
* The per-struct decoders reproduce the `serde` derive semantics of the
  struct declarations: field renames, `Option` fields defaulting to `none`
  when missing or null, `#[serde(default)]` fields, and
  `#[serde(deserialize_with = ...)]` fields.  Fields are probed in
  declaration order; this is observationally equivalent for the decode
  results studied here.
* The HTTP layer is modelled by a `World` function from URLs to responses;
  `fetch` reproduces the `reqwest::get(..).unwrap()` / `.text().unwrap()`
  pipeline shared by every fetcher and by the `Api` facade.
-/

set_option maxHeartbeats 1000000

namespace DeezerMeta

/-- JSON values, as `serde_json::Value`. -/
inductive Json where
  | null
  | bool (b : Bool)
  | num (n : Int)
  | str (s : String)
  | arr (elems : List Json)
  | obj (fields : List (String × Json))
  deriving Repr

/-- Result of running Rust code that may return `Ok`, return `Err`, or
panic (abort the process). -/
inductive Outcome (α : Type) where
  | ok (v : α)
  | err (msg : String)
  | panic
  deriving DecidableEq, Repr

namespace Outcome

def bind : Outcome α → (α → Outcome β) → Outcome β
  | .ok v, f => f v
  | .err m, _ => .err m
  | .panic, _ => .panic

def map (f : α → β) : Outcome α → Outcome β
  | .ok v => .ok (f v)
  | .err m => .err m
  | .panic => .panic

instance : Monad Outcome where
  pure := Outcome.ok
  bind := Outcome.bind
  map := Outcome.map

/-- The value, if the outcome is a success. -/
def toOption : Outcome α → Option α
  | .ok v => some v
  | _ => none

/-- The error message, if the outcome is a returned `Err`. -/
def errMsg : Outcome α → Option String
  | .err m => some m
  | _ => none

def isOk : Outcome α → Bool
  | .ok _ => true
  | _ => false

def isErr : Outcome α → Bool
  | .err _ => true
  | _ => false

end Outcome

mutual

/-- Executable structural size of a JSON value, used as decoding fuel for
the one recursive record type (`Album.alternative_album`). -/
def Json.size : Json → Nat
  | .null => 1
  | .bool _ => 1
  | .num _ => 1
  | .str _ => 1
  | .arr xs => 1 + Json.sizeList xs
  | .obj fs => 1 + Json.sizeFields fs

def Json.sizeList : List Json → Nat
  | [] => 0
  | j :: rest => 1 + Json.size j + Json.sizeList rest

def Json.sizeFields : List (String × Json) → Nat
  | [] => 0
  | (_, v) :: rest => 1 + Json.size v + Json.sizeFields rest

end

/-- Key lookup in a JSON object's field list (first match, as for maps
with distinct keys). -/
def lookupField : List (String × Json) → String → Option Json
  | [], _ => none
  | (k, v) :: rest, key => if k = key then some v else lookupField rest key

/-- `serde_json::Value::get` with a string index: `Some` only on objects
containing the key. -/
def Json.get : Json → String → Option Json
  | .obj fields, key => lookupField fields key
  | _, _ => none

/-- `serde_json::Value::as_array`. -/
def Json.asArray : Json → Option (List Json)
  | .arr xs => some xs
  | _ => none

/-! ## Primitive decoders (`serde` `Deserialize` for primitive types) -/

def decodeString : Json → Outcome String
  | .str s => .ok s
  | _ => .err "invalid type: expected a string"

def decodeBool : Json → Outcome Bool
  | .bool b => .ok b
  | _ => .err "invalid type: expected a boolean"

def decodeU32 : Json → Outcome Nat
  | .num n => if 0 ≤ n ∧ n < 4294967296 then .ok n.toNat else .err "invalid value: out of range for u32"
  | _ => .err "invalid type: expected u32"

def decodeU64 : Json → Outcome Nat
  | .num n => if 0 ≤ n ∧ n < 18446744073709551616 then .ok n.toNat else .err "invalid value: out of range for u64"
  | _ => .err "invalid type: expected u64"

def decodeI32 : Json → Outcome Int
  | .num n => if -2147483648 ≤ n ∧ n < 2147483648 then .ok n else .err "invalid value: out of range for i32"
  | _ => .err "invalid type: expected i32"

/-- `f32` fields (`Track.bpm`, `Track.gain`): the crate performs no float
arithmetic, the decoded numeral is only carried; it is modelled as the
integral JSON numeral. -/
def decodeF32 : Json → Outcome Int
  | .num n => .ok n
  | _ => .err "invalid type: expected f32"

/-! ## Struct-field combinators (`serde` derive semantics) -/

/-- Required struct field: a missing key is a decode error. -/
def reqField (dec : Json → Outcome α) (fs : List (String × Json)) (name : String) : Outcome α :=
  match lookupField fs name with
  | none => .err ("missing field " ++ name)
  | some v => dec v

/-- Field of type `Option<T>`: a missing key or a null value decodes to
`none` under the `serde` derive. -/
def optField (dec : Json → Outcome α) (fs : List (String × Json)) (name : String) : Outcome (Option α) :=
  match lookupField fs name with
  | none => .ok none
  | some .null => .ok none
  | some v => (dec v).map some

/-- Field with `#[serde(default)]`: a missing key takes the type's default
value; a present value must decode. -/
def defField (dflt : α) (dec : Json → Outcome α) (fs : List (String × Json)) (name : String) : Outcome α :=
  match lookupField fs name with
  | none => .ok dflt
  | some v => dec v

/-- `Vec<T>` field value decoded with the plain derived instance: the value
must be an array and every element must decode. -/
def decodeElems (dec : Json → Outcome α) : List Json → Outcome (List α)
  | [] => .ok []
  | o :: rest => do
    let v ← dec o
    let vs ← decodeElems dec rest
    pure (v :: vs)

def decodeList (dec : Json → Outcome α) : Json → Outcome (List α)
  | .arr xs => decodeElems dec xs
  | _ => .err "invalid type: expected a sequence"

/-! ## The envelope decoders -/

/-- Element loop of `deserialize_map` (objects/mod.rs): a failing element is
skipped and its error message is printed; the printed diagnostics are the
second component. -/
def deserialize_mapElems (dec : Json → Outcome α) : List Json → Outcome (List α × List String)
  | [] => .ok ([], [])
  | o :: rest =>
    match dec o with
    | .ok v => (deserialize_mapElems dec rest).map (fun p => (v :: p.1, p.2))
    | .err e => (deserialize_mapElems dec rest).map (fun p => (p.1, e :: p.2))
    | .panic => .panic

/-- The lenient envelope decoder `deserialize_map` of
`src/api/objects/mod.rs`.  `helper.get("data").unwrap().as_array().unwrap()`
panics unless the input is an object whose `data` member is an array; failing
elements are skipped with a printed diagnostic (second component). -/
def deserialize_map (dec : Json → Outcome α) (helper : Json) : Outcome (List α × List String) :=
  match helper.get "data" with
  | none => .panic
  | some d =>
    match d.asArray with
    | none => .panic
    | some objects => deserialize_mapElems dec objects

/-- Element loop shared by `deserialize_chart` (chart.rs) and
`deserialize_offers` (info.rs): each element is decoded with `.unwrap()`,
so any element failure panics. -/
def decodeAllOrPanic (dec : Json → Outcome α) : List Json → Outcome (List α)
  | [] => .ok []
  | o :: rest =>
    match dec o with
    | .ok v => (decodeAllOrPanic dec rest).map (fun vs => v :: vs)
    | .err _ => .panic
    | .panic => .panic

/-- The strict envelope decoder `deserialize_chart` of
`src/api/objects/chart.rs`: same envelope unwrapping as `deserialize_map`,
but every element is decoded with `.unwrap()`. -/
def deserialize_chart (dec : Json → Outcome α) (helper : Json) : Outcome (List α) :=
  match helper.get "data" with
  | none => .panic
  | some d =>
    match d.asArray with
    | none => .panic
    | some objects => decodeAllOrPanic dec objects

/-! ## The HTTP fetch pipeline -/

/-- Body of an HTTP response, as seen by `serde_json::from_str`. -/
inductive Body where
  | malformed
  | json (j : Json)

/-- Result of one `GET`: transport failure, body-read failure, or a body. -/
inductive FetchResp where
  | transportErr
  | textErr
  | body (b : Body)

/-- The external HTTP world: what each URL answers. -/
def World := String → FetchResp

/-- The fetch pipeline shared by every fetcher:
`reqwest::get(&url).unwrap()` / `client.get(&url).send().unwrap()`, then
`resp.text().unwrap()`, then the resource constructor on the body. -/
def fetch (w : World) (url : String) (mk : Body → Outcome α) : Outcome α :=
  match w url with
  | .transportErr => .panic
  | .textErr => .panic
  | .body b => mk b

/-- The shape shared by every `new`: `serde_json::from_str(&json).unwrap()`,
panicking on a parse failure or a decode error. -/
def newOf (dec : Json → Outcome α) : Body → Outcome α
  | .malformed => .panic
  | .json j =>
    match dec j with
    | .ok v => .ok v
    | .err _ => .panic
    | .panic => .panic

/-! ## Resource records and their decoders

One structure per Rust struct, fields in declaration order, decoders
following the `serde` attributes on each field. -/

/-- `artist::Artist` (artist.rs). -/
structure Artist where
  id : Nat
  name : String
  link : String
  share_link : String
  picture : String
  picture_small : String
  picture_medium : String
  picture_big : String
  picture_xl : String
  nb_album : Nat
  nb_fan : Nat
  has_radio : Bool
  tracklist : String
  deriving Repr, DecidableEq

def decodeArtist : Json → Outcome Artist
  | .obj fs => do
    let id ← reqField decodeU32 fs "id"
    let name ← reqField decodeString fs "name"
    let link ← reqField decodeString fs "link"
    let share_link ← reqField decodeString fs "share"
    let picture ← reqField decodeString fs "picture"
    let picture_small ← reqField decodeString fs "picture_small"
    let picture_medium ← reqField decodeString fs "picture_medium"
    let picture_big ← reqField decodeString fs "picture_big"
    let picture_xl ← reqField decodeString fs "picture_xl"
    let nb_album ← reqField decodeU32 fs "nb_album"
    let nb_fan ← reqField decodeU32 fs "nb_fan"
    let has_radio ← reqField decodeBool fs "radio"
    let tracklist ← reqField decodeString fs "tracklist"
    pure ⟨id, name, link, share_link, picture, picture_small, picture_medium,
      picture_big, picture_xl, nb_album, nb_fan, has_radio, tracklist⟩
  | _ => .err "invalid type: expected struct Artist"

def Artist.new : Body → Outcome Artist := newOf decodeArtist

def get_artist_api (id : Nat) : String :=
  "https://api.deezer.com/artist/" ++ toString id

def Artist.get (w : World) (id : Nat) : Outcome Artist :=
  fetch w (get_artist_api id) Artist.new

/-- `genre::Genre` (genre.rs). -/
structure Genre where
  id : Nat
  name : String
  picture : String
  picture_small : String
  picture_medium : String
  picture_big : String
  picture_xl : String
  deriving Repr, DecidableEq

def decodeGenre : Json → Outcome Genre
  | .obj fs => do
    let id ← reqField decodeU32 fs "id"
    let name ← reqField decodeString fs "name"
    let picture ← reqField decodeString fs "picture"
    let picture_small ← reqField decodeString fs "picture_small"
    let picture_medium ← reqField decodeString fs "picture_medium"
    let picture_big ← reqField decodeString fs "picture_big"
    let picture_xl ← reqField decodeString fs "picture_xl"
    pure ⟨id, name, picture, picture_small, picture_medium, picture_big, picture_xl⟩
  | _ => .err "invalid type: expected struct Genre"

def Genre.new : Body → Outcome Genre := newOf decodeGenre

def get_genre_api (id : Nat) : String :=
  "https://api.deezer.com/genre/" ++ toString id

def Genre.get (w : World) (id : Nat) : Outcome Genre :=
  fetch w (get_genre_api id) Genre.new

/-- `user::User` (user.rs). -/
structure User where
  id : Nat
  name : String
  last_name : String
  first_name : String
  email : String
  status : Nat
  birthday : String
  inscription_date : String
  gender : String
  link : String
  picture : String
  picture_small : String
  picture_medium : String
  picture_big : String
  picture_xl : String
  country : String
  lang : String
  is_kid : Bool
  track_list : String
  deriving Repr, DecidableEq

def decodeUser : Json → Outcome User
  | .obj fs => do
    let id ← reqField decodeU32 fs "id"
    let name ← reqField decodeString fs "name"
    let last_name ← defField "" decodeString fs "lastname"
    let first_name ← defField "" decodeString fs "firstname"
    let email ← defField "" decodeString fs "email"
    let status ← defField 0 decodeU32 fs "status"
    let birthday ← defField "" decodeString fs "birthday"
    let inscription_date ← defField "" decodeString fs "inscription_date"
    let gender ← defField "" decodeString fs "gender"
    let link ← reqField decodeString fs "link"
    let picture ← reqField decodeString fs "picture"
    let picture_small ← reqField decodeString fs "picture_small"
    let picture_medium ← reqField decodeString fs "picture_medium"
    let picture_big ← reqField decodeString fs "picture_big"
    let picture_xl ← reqField decodeString fs "picture_xl"
    let country ← reqField decodeString fs "country"
    let lang ← defField "" decodeString fs "lang"
    let is_kid ← defField false decodeBool fs "is_kid"
    let track_list ← reqField decodeString fs "tracklist"
    pure ⟨id, name, last_name, first_name, email, status, birthday,
      inscription_date, gender, link, picture, picture_small, picture_medium,
      picture_big, picture_xl, country, lang, is_kid, track_list⟩
  | _ => .err "invalid type: expected struct User"

def User.new : Body → Outcome User := newOf decodeUser

def get_user_api (id : Nat) : String :=
  "https://api.deezer.com/user/" ++ toString id

def User.get (w : World) (id : Nat) : Outcome User :=
  fetch w (get_user_api id) User.new

/-- `comment::CommentAuthor` (comment.rs). -/
structure CommentAuthor where
  id : Nat
  name : String
  link : String
  picture : String
  picture_small : String
  picture_medium : String
  picture_big : String
  picture_xl : String
  deriving Repr, DecidableEq

def decodeCommentAuthor : Json → Outcome CommentAuthor
  | .obj fs => do
    let id ← reqField decodeU32 fs "id"
    let name ← reqField decodeString fs "name"
    let link ← reqField decodeString fs "link"
    let picture ← reqField decodeString fs "picture"
    let picture_small ← reqField decodeString fs "picture_small"
    let picture_medium ← reqField decodeString fs "picture_medium"
    let picture_big ← reqField decodeString fs "picture_big"
    let picture_xl ← reqField decodeString fs "picture_xl"
    pure ⟨id, name, link, picture, picture_small, picture_medium, picture_big, picture_xl⟩
  | _ => .err "invalid type: expected struct CommentAuthor"

def CommentAuthor.get_full (w : World) (self : CommentAuthor) : Outcome User :=
  User.get w self.id

/-- `comment::CommentParent` (comment.rs, private). -/
structure CommentParent where
  id : String
  object_type : String
  deriving Repr, DecidableEq

def decodeCommentParent : Json → Outcome CommentParent
  | .obj fs => do
    let id ← reqField decodeString fs "id"
    let object_type ← reqField decodeString fs "type"
    pure ⟨id, object_type⟩
  | _ => .err "invalid type: expected struct CommentParent"

/-- `comment::Comment` (comment.rs). -/
structure Comment where
  id : Nat
  text : String
  date : Nat
  object : CommentParent
  author : CommentAuthor
  deriving Repr, DecidableEq

def decodeComment : Json → Outcome Comment
  | .obj fs => do
    let id ← reqField decodeU32 fs "id"
    let text ← reqField decodeString fs "text"
    let date ← reqField decodeU32 fs "date"
    let object ← reqField decodeCommentParent fs "object"
    let author ← reqField decodeCommentAuthor fs "author"
    pure ⟨id, text, date, object, author⟩
  | _ => .err "invalid type: expected struct Comment"

def Comment.new : Body → Outcome Comment := newOf decodeComment

def get_comment_api (id : Nat) : String :=
  "https://api.deezer.com/comment/" ++ toString id

def Comment.get (w : World) (id : Nat) : Outcome Comment :=
  fetch w (get_comment_api id) Comment.new

/-- `editorial::Editorial` (editorial.rs). -/
structure Editorial where
  id : Nat
  name : String
  picture : String
  picture_small : String
  picture_medium : String
  picture_big : String
  picture_xl : String
  deriving Repr, DecidableEq

def decodeEditorial : Json → Outcome Editorial
  | .obj fs => do
    let id ← reqField decodeU32 fs "id"
    let name ← reqField decodeString fs "name"
    let picture ← reqField decodeString fs "picture"
    let picture_small ← reqField decodeString fs "picture_small"
    let picture_medium ← reqField decodeString fs "picture_medium"
    let picture_big ← reqField decodeString fs "picture_big"
    let picture_xl ← reqField decodeString fs "picture_xl"
    pure ⟨id, name, picture, picture_small, picture_medium, picture_big, picture_xl⟩
  | _ => .err "invalid type: expected struct Editorial"

def Editorial.new : Body → Outcome Editorial := newOf decodeEditorial

def get_editorial_api (id : Nat) : String :=
  "https://api.deezer.com/editorial/" ++ toString id

def Editorial.get (w : World) (id : Nat) : Outcome Editorial :=
  fetch w (get_editorial_api id) Editorial.new

/-- `radio::Radio` (radio.rs). -/
structure Radio where
  id : Nat
  title : String
  description : String
  share_link : String
  picture : String
  picture_small : String
  picture_medium : String
  picture_big : String
  picture_xl : String
  track_list : String
  deriving Repr, DecidableEq

def decodeRadio : Json → Outcome Radio
  | .obj fs => do
    let id ← reqField decodeU32 fs "id"
    let title ← reqField decodeString fs "title"
    let description ← reqField decodeString fs "description"
    let share_link ← reqField decodeString fs "share"
    let picture ← reqField decodeString fs "picture"
    let picture_small ← reqField decodeString fs "picture_small"
    let picture_medium ← reqField decodeString fs "picture_medium"
    let picture_big ← reqField decodeString fs "picture_big"
    let picture_xl ← reqField decodeString fs "picture_xl"
    let track_list ← reqField decodeString fs "tracklist"
    pure ⟨id, title, description, share_link, picture, picture_small,
      picture_medium, picture_big, picture_xl, track_list⟩
  | _ => .err "invalid type: expected struct Radio"

def Radio.new : Body → Outcome Radio := newOf decodeRadio

def get_radio_api (id : Nat) : String :=
  "https://api.deezer.com/radio/" ++ toString id

def Radio.get (w : World) (id : Nat) : Outcome Radio :=
  fetch w (get_radio_api id) Radio.new

/-- `options::Options` (options.rs). -/
structure Options where
  streaming : Bool
  streaming_duration : Nat
  offline : Bool
  hq : Bool
  ads_display : Bool
  ads_audio : Bool
  has_too_many_devices : Bool
  can_subscribe : Bool
  radio_skips : Nat
  lossless : Bool
  preview : Bool
  radio : Bool
  deriving Repr, DecidableEq

def decodeOptions : Json → Outcome Options
  | .obj fs => do
    let streaming ← reqField decodeBool fs "streaming"
    let streaming_duration ← reqField decodeU32 fs "streaming_duration"
    let offline ← reqField decodeBool fs "offline"
    let hq ← reqField decodeBool fs "hq"
    let ads_display ← reqField decodeBool fs "ads_display"
    let ads_audio ← reqField decodeBool fs "ads_audio"
    let has_too_many_devices ← reqField decodeBool fs "too_many_devices"
    let can_subscribe ← reqField decodeBool fs "can_subscribe"
    let radio_skips ← reqField decodeU32 fs "radio_skips"
    let lossless ← reqField decodeBool fs "lossless"
    let preview ← reqField decodeBool fs "preview"
    let radio ← reqField decodeBool fs "radio"
    pure ⟨streaming, streaming_duration, offline, hq, ads_display, ads_audio,
      has_too_many_devices, can_subscribe, radio_skips, lossless, preview, radio⟩
  | _ => .err "invalid type: expected struct Options"

def Options.new : Body → Outcome Options := newOf decodeOptions

def get_options_api : String := "https://api.deezer.com/options"

def Options.get (w : World) : Outcome Options :=
  fetch w get_options_api Options.new

/-- `info::Offer` (info.rs). -/
structure Offer where
  id : Nat
  name : String
  amount : String
  currency : String
  displayed_amount : String
  tc : String
  tc_html : String
  tc_txt : String
  try_and_buy : Nat
  deriving Repr, DecidableEq

def decodeOffer : Json → Outcome Offer
  | .obj fs => do
    let id ← reqField decodeU32 fs "id"
    let name ← reqField decodeString fs "name"
    let amount ← reqField decodeString fs "amount"
    let currency ← reqField decodeString fs "currency"
    let displayed_amount ← reqField decodeString fs "displayed_amount"
    let tc ← reqField decodeString fs "tc"
    let tc_html ← reqField decodeString fs "tc_html"
    let tc_txt ← reqField decodeString fs "tc_txt"
    let try_and_buy ← reqField decodeU32 fs "try_and_buy"
    pure ⟨id, name, amount, currency, displayed_amount, tc, tc_html, tc_txt, try_and_buy⟩
  | _ => .err "invalid type: expected struct Offer"

/-- The `Offer`-specific envelope decoder `deserialize_offers` of
`src/api/objects/info.rs`: `helper.as_array().unwrap()` panics unless the
input is a bare array; each element is decoded with `.unwrap()`. -/
def deserialize_offers (helper : Json) : Outcome (List Offer) :=
  match helper.asArray with
  | none => .panic
  | some objects => decodeAllOrPanic decodeOffer objects

/-- `info::Info` (info.rs). -/
structure Info where
  country_iso : String
  country : String
  «open» : Bool
  offers : List Offer
  deriving Repr, DecidableEq

def decodeInfo : Json → Outcome Info
  | .obj fs => do
    let country_iso ← reqField decodeString fs "country_iso"
    let country ← reqField decodeString fs "country"
    let isOpen ← reqField decodeBool fs "open"
    let offers ← reqField deserialize_offers fs "offers"
    pure ⟨country_iso, country, isOpen, offers⟩
  | _ => .err "invalid type: expected struct Info"

def Info.new : Body → Outcome Info := newOf decodeInfo

def get_info_api : String := "https://api.deezer.com/infos"

def Info.get (w : World) : Outcome Info :=
  fetch w get_info_api Info.new

/-- `track::ContributorArtist` (track.rs). -/
structure track.ContributorArtist where
  id : Nat
  name : String
  link : String
  share_link : String
  picture_small : String
  picture_medium : String
  picture_big : String
  picture_xl : String
  has_radio : Bool
  tracklist : String
  deriving Repr, DecidableEq

def decodeTrackContributorArtist : Json → Outcome track.ContributorArtist
  | .obj fs => do
    let id ← reqField decodeU32 fs "id"
    let name ← reqField decodeString fs "name"
    let link ← reqField decodeString fs "link"
    let share_link ← reqField decodeString fs "share"
    let picture_small ← reqField decodeString fs "picture_small"
    let picture_medium ← reqField decodeString fs "picture_medium"
    let picture_big ← reqField decodeString fs "picture_big"
    let picture_xl ← reqField decodeString fs "picture_xl"
    let has_radio ← reqField decodeBool fs "radio"
    let tracklist ← reqField decodeString fs "tracklist"
    pure ⟨id, name, link, share_link, picture_small, picture_medium,
      picture_big, picture_xl, has_radio, tracklist⟩
  | _ => .err "invalid type: expected struct ContributorArtist"

/-- `track::TrackArtist` (track.rs). -/
structure TrackArtist where
  id : Nat
  name : String
  link : String
  share_link : String
  picture : String
  picture_small : String
  picture_medium : String
  picture_big : String
  picture_xl : String
  nb_album : Option Nat
  nb_fan : Option Nat
  has_radio : Bool
  tracklist : String
  deriving Repr, DecidableEq

def decodeTrackArtist : Json → Outcome TrackArtist
  | .obj fs => do
    let id ← reqField decodeU32 fs "id"
    let name ← reqField decodeString fs "name"
    let link ← reqField decodeString fs "link"
    let share_link ← reqField decodeString fs "share"
    let picture ← reqField decodeString fs "picture"
    let picture_small ← reqField decodeString fs "picture_small"
    let picture_medium ← reqField decodeString fs "picture_medium"
    let picture_big ← reqField decodeString fs "picture_big"
    let picture_xl ← reqField decodeString fs "picture_xl"
    let nb_album ← optField decodeU32 fs "nb_album"
    let nb_fan ← optField decodeU32 fs "nb_fan"
    let has_radio ← reqField decodeBool fs "radio"
    let tracklist ← reqField decodeString fs "tracklist"
    pure ⟨id, name, link, share_link, picture, picture_small, picture_medium,
      picture_big, picture_xl, nb_album, nb_fan, has_radio, tracklist⟩
  | _ => .err "invalid type: expected struct TrackArtist"

/-- `track::TrackAlbum` (track.rs). -/
structure TrackAlbum where
  id : Nat
  title : String
  link : String
  cover : String
  cover_small : String
  cover_medium : String
  cover_big : String
  cover_xl : String
  release_date : String
  deriving Repr, DecidableEq

def decodeTrackAlbum : Json → Outcome TrackAlbum
  | .obj fs => do
    let id ← reqField decodeU32 fs "id"
    let title ← reqField decodeString fs "title"
    let link ← reqField decodeString fs "link"
    let cover ← reqField decodeString fs "cover"
    let cover_small ← reqField decodeString fs "cover_small"
    let cover_medium ← reqField decodeString fs "cover_medium"
    let cover_big ← reqField decodeString fs "cover_big"
    let cover_xl ← reqField decodeString fs "cover_xl"
    let release_date ← reqField decodeString fs "release_date"
    pure ⟨id, title, link, cover, cover_small, cover_medium, cover_big,
      cover_xl, release_date⟩
  | _ => .err "invalid type: expected struct TrackAlbum"

/-- `track::Track` (track.rs). -/
structure Track where
  id : Nat
  readable : Bool
  title : String
  title_short : String
  title_version : String
  unseen : Option Bool
  isrc : String
  link : String
  share_link : String
  duration_in_seconds : Nat
  track_position_in_album : Nat
  album_disk_number : Nat
  rank : Nat
  release_date : String
  has_explicit_lyrics : Bool
  preview_url : Option String
  bpm : Int
  gain : Int
  available_countries : List String
  alternative_track_id : Option Nat
  contributors : List track.ContributorArtist
  artist : TrackArtist
  album : TrackAlbum
  deriving Repr, DecidableEq

def decodeTrack : Json → Outcome Track
  | .obj fs => do
    let id ← reqField decodeU32 fs "id"
    let readable ← reqField decodeBool fs "readable"
    let title ← reqField decodeString fs "title"
    let title_short ← reqField decodeString fs "title_short"
    let title_version ← reqField decodeString fs "title_version"
    let unseen ← optField decodeBool fs "unseen"
    let isrc ← reqField decodeString fs "isrc"
    let link ← reqField decodeString fs "link"
    let share_link ← reqField decodeString fs "share"
    let duration_in_seconds ← reqField decodeU32 fs "duration"
    let track_position_in_album ← reqField decodeU32 fs "track_position"
    let album_disk_number ← reqField decodeU32 fs "disk_number"
    let rank ← reqField decodeU32 fs "rank"
    let release_date ← reqField decodeString fs "release_date"
    let has_explicit_lyrics ← reqField decodeBool fs "explicit_lyrics"
    let preview_url ← optField decodeString fs "preview_url"
    let bpm ← reqField decodeF32 fs "bpm"
    let gain ← reqField decodeF32 fs "gain"
    let available_countries ← reqField (decodeList decodeString) fs "available_countries"
    let alternative_track_id ← optField decodeU32 fs "alternative"
    let contributors ← reqField (decodeList decodeTrackContributorArtist) fs "contributors"
    let artist ← reqField decodeTrackArtist fs "artist"
    let album ← reqField decodeTrackAlbum fs "album"
    pure ⟨id, readable, title, title_short, title_version, unseen, isrc, link,
      share_link, duration_in_seconds, track_position_in_album,
      album_disk_number, rank, release_date, has_explicit_lyrics, preview_url,
      bpm, gain, available_countries, alternative_track_id, contributors,
      artist, album⟩
  | _ => .err "invalid type: expected struct Track"

def Track.new : Body → Outcome Track := newOf decodeTrack

def get_track_api (id : Nat) : String :=
  "https://api.deezer.com/track/" ++ toString id

def Track.get (w : World) (id : Nat) : Outcome Track :=
  fetch w (get_track_api id) Track.new

/-- `album::ContributorArtist` (album.rs). -/
structure album.ContributorArtist where
  id : Nat
  name : String
  link : String
  share_link : String
  picture_small : String
  picture_medium : String
  picture_big : String
  picture_xl : String
  has_radio : Bool
  tracklist : String
  deriving Repr, DecidableEq

def decodeAlbumContributorArtist : Json → Outcome album.ContributorArtist
  | .obj fs => do
    let id ← reqField decodeU32 fs "id"
    let name ← reqField decodeString fs "name"
    let link ← reqField decodeString fs "link"
    let share_link ← reqField decodeString fs "share"
    let picture_small ← reqField decodeString fs "picture_small"
    let picture_medium ← reqField decodeString fs "picture_medium"
    let picture_big ← reqField decodeString fs "picture_big"
    let picture_xl ← reqField decodeString fs "picture_xl"
    let has_radio ← reqField decodeBool fs "radio"
    let tracklist ← reqField decodeString fs "tracklist"
    pure ⟨id, name, link, share_link, picture_small, picture_medium,
      picture_big, picture_xl, has_radio, tracklist⟩
  | _ => .err "invalid type: expected struct ContributorArtist"

/-- `album::AlbumArtist` (album.rs). -/
structure AlbumArtist where
  id : Nat
  name : String
  picture : String
  picture_small : String
  picture_medium : String
  picture_big : String
  picture_xl : String
  deriving Repr, DecidableEq

def decodeAlbumArtist : Json → Outcome AlbumArtist
  | .obj fs => do
    let id ← reqField decodeU32 fs "id"
    let name ← reqField decodeString fs "name"
    let picture ← reqField decodeString fs "picture"
    let picture_small ← reqField decodeString fs "picture_small"
    let picture_medium ← reqField decodeString fs "picture_medium"
    let picture_big ← reqField decodeString fs "picture_big"
    let picture_xl ← reqField decodeString fs "picture_xl"
    pure ⟨id, name, picture, picture_small, picture_medium, picture_big, picture_xl⟩
  | _ => .err "invalid type: expected struct AlbumArtist"

/-- `album::AlbumTrackArtist` (album.rs). -/
structure AlbumTrackArtist where
  id : Nat
  name : String
  tracklist : String
  deriving Repr, DecidableEq

def decodeAlbumTrackArtist : Json → Outcome AlbumTrackArtist
  | .obj fs => do
    let id ← reqField decodeU32 fs "id"
    let name ← reqField decodeString fs "name"
    let tracklist ← reqField decodeString fs "tracklist"
    pure ⟨id, name, tracklist⟩
  | _ => .err "invalid type: expected struct AlbumTrackArtist"

/-- `album::AlbumTrack` (album.rs). -/
structure AlbumTrack where
  id : Nat
  readable : Bool
  title : String
  title_short : String
  title_version : String
  link : String
  duration_in_seconds : Nat
  rank : Nat
  explicit_lyrics : Bool
  preview : String
  artist : AlbumTrackArtist
  deriving Repr, DecidableEq

def decodeAlbumTrack : Json → Outcome AlbumTrack
  | .obj fs => do
    let id ← reqField decodeU32 fs "id"
    let readable ← reqField decodeBool fs "readable"
    let title ← reqField decodeString fs "title"
    let title_short ← reqField decodeString fs "title_short"
    let title_version ← reqField decodeString fs "title_version"
    let link ← reqField decodeString fs "link"
    let duration_in_seconds ← reqField decodeU32 fs "duration"
    let rank ← reqField decodeU32 fs "rank"
    let explicit_lyrics ← reqField decodeBool fs "explicit_lyrics"
    let preview ← reqField decodeString fs "preview"
    let artist ← reqField decodeAlbumTrackArtist fs "artist"
    pure ⟨id, readable, title, title_short, title_version, link,
      duration_in_seconds, rank, explicit_lyrics, preview, artist⟩
  | _ => .err "invalid type: expected struct AlbumTrack"

/-- `album::AlbumGenre` (album.rs). -/
structure AlbumGenre where
  id : Nat
  name : String
  picture : String
  deriving Repr, DecidableEq

def decodeAlbumGenre : Json → Outcome AlbumGenre
  | .obj fs => do
    let id ← reqField decodeU32 fs "id"
    let name ← reqField decodeString fs "name"
    let picture ← reqField decodeString fs "picture"
    pure ⟨id, name, picture⟩
  | _ => .err "invalid type: expected struct AlbumGenre"

/-- `album::Album` (album.rs).  `alternative_album` is the single recursive
field of the data model. -/
structure Album where
  id : Nat
  title : String
  upc : String
  link : String
  share_link : String
  cover : String
  cover_small : String
  cover_medium : String
  cover_big : String
  cover_xl : String
  genre_id : Option Int
  genres : List AlbumGenre
  label : String
  nb_tracks : Nat
  duration_in_seconds : Nat
  fans : Nat
  rating : Nat
  release_date : String
  record_type : String
  available : Bool
  alternative_album : Option Album
  tracklist_api_url : String
  has_explicit_lyrics : Bool
  contributors : List album.ContributorArtist
  artist : AlbumArtist
  tracks : List AlbumTrack
  deriving Repr

/-- All non-recursive fields of the derived `Album` decode; the outcome of
the recursive `alternative` field is passed in. -/
def decodeAlbumFields (fs : List (String × Json))
    (altOut : Outcome (Option Album)) : Outcome Album := do
  let id ← reqField decodeU32 fs "id"
  let title ← reqField decodeString fs "title"
  let upc ← reqField decodeString fs "upc"
  let link ← reqField decodeString fs "link"
  let share_link ← reqField decodeString fs "share"
  let cover ← reqField decodeString fs "cover"
  let cover_small ← reqField decodeString fs "cover_small"
  let cover_medium ← reqField decodeString fs "cover_medium"
  let cover_big ← reqField decodeString fs "cover_big"
  let cover_xl ← reqField decodeString fs "cover_xl"
  let genre_id ← optField decodeI32 fs "genre_id"
  let genres ← reqField (fun v => (deserialize_map decodeAlbumGenre v).map Prod.fst) fs "genres"
  let label ← reqField decodeString fs "label"
  let nb_tracks ← reqField decodeU32 fs "nb_tracks"
  let duration_in_seconds ← reqField decodeU32 fs "duration"
  let fans ← reqField decodeU32 fs "fans"
  let rating ← reqField decodeU32 fs "rating"
  let release_date ← reqField decodeString fs "release_date"
  let record_type ← reqField decodeString fs "record_type"
  let available ← reqField decodeBool fs "available"
  let alternative_album ← altOut
  let tracklist_api_url ← reqField decodeString fs "tracklist"
  let has_explicit_lyrics ← reqField decodeBool fs "explicit_lyrics"
  let contributors ← reqField (decodeList decodeAlbumContributorArtist) fs "contributors"
  let artist ← reqField decodeAlbumArtist fs "artist"
  let tracks ← reqField (fun v => (deserialize_map decodeAlbumTrack v).map Prod.fst) fs "tracks"
  pure ⟨id, title, upc, link, share_link, cover, cover_small, cover_medium,
    cover_big, cover_xl, genre_id, genres, label, nb_tracks,
    duration_in_seconds, fans, rating, release_date, record_type, available,
    alternative_album, tracklist_api_url, has_explicit_lyrics, contributors,
    artist, tracks⟩

/-- The derived `Album` decoder with a structural fuel bound on the nesting
depth of the `alternative` field (`Option<Box<Album>>`,
`#[serde(default)]`).  `decodeAlbum` supplies `Json.size j` as fuel, which
strictly exceeds any possible nesting depth, so the fuel-exhaustion arm is
unreachable. -/
def decodeAlbumF : Nat → Json → Outcome Album
  | fuel + 1, .obj fs =>
    decodeAlbumFields fs
      (match lookupField fs "alternative" with
       | none => .ok none
       | some .null => .ok none
       | some v => (decodeAlbumF fuel v).map some)
  | 0, .obj _ => .panic
  | _, .null => .err "invalid type: expected struct Album"
  | _, .bool _ => .err "invalid type: expected struct Album"
  | _, .num _ => .err "invalid type: expected struct Album"
  | _, .str _ => .err "invalid type: expected struct Album"
  | _, .arr _ => .err "invalid type: expected struct Album"

def decodeAlbum (j : Json) : Outcome Album := decodeAlbumF (Json.size j) j

/-- `Album::new` (album.rs): decode, then rewrite a `genre_id` of `-1`
to `None`. -/
def Album.new (b : Body) : Outcome Album :=
  (newOf decodeAlbum b).map (fun album =>
    if album.genre_id = some (-1) then { album with genre_id := none } else album)

def get_album_api (id : Nat) : String :=
  "https://api.deezer.com/album/" ++ toString id

def Album.get (w : World) (id : Nat) : Outcome Album :=
  fetch w (get_album_api id) Album.new

/-- `playlist::PlaylistUser` (playlist.rs). -/
structure PlaylistUser where
  id : Nat
  name : String
  deriving Repr, DecidableEq

def decodePlaylistUser : Json → Outcome PlaylistUser
  | .obj fs => do
    let id ← reqField decodeU32 fs "id"
    let name ← reqField decodeString fs "name"
    pure ⟨id, name⟩
  | _ => .err "invalid type: expected struct PlaylistUser"

/-- `playlist::PlaylistTrackArtist` (playlist.rs). -/
structure PlaylistTrackArtist where
  id : Nat
  name : String
  link : String
  deriving Repr, DecidableEq

def decodePlaylistTrackArtist : Json → Outcome PlaylistTrackArtist
  | .obj fs => do
    let id ← reqField decodeU32 fs "id"
    let name ← reqField decodeString fs "name"
    let link ← reqField decodeString fs "link"
    pure ⟨id, name, link⟩
  | _ => .err "invalid type: expected struct PlaylistTrackArtist"

/-- `playlist::PlaylistTrackAlbum` (playlist.rs). -/
structure PlaylistTrackAlbum where
  id : Nat
  title : String
  cover : String
  cover_small : String
  cover_medium : String
  cover_big : String
  cover_xl : String
  deriving Repr, DecidableEq

def decodePlaylistTrackAlbum : Json → Outcome PlaylistTrackAlbum
  | .obj fs => do
    let id ← reqField decodeU32 fs "id"
    let title ← reqField decodeString fs "title"
    let cover ← reqField decodeString fs "cover"
    let cover_small ← reqField decodeString fs "cover_small"
    let cover_medium ← reqField decodeString fs "cover_medium"
    let cover_big ← reqField decodeString fs "cover_big"
    let cover_xl ← reqField decodeString fs "cover_xl"
    pure ⟨id, title, cover, cover_small, cover_medium, cover_big, cover_xl⟩
  | _ => .err "invalid type: expected struct PlaylistTrackAlbum"

/-- `playlist::PlaylistTrack` (playlist.rs). -/
structure PlaylistTrack where
  id : Nat
  readable : Bool
  title : String
  title_short : String
  title_version : String
  unseen : Bool
  link : String
  duration_in_seconds : Nat
  rank : Nat
  has_explicit_lyrics : Bool
  preview_url : String
  added_on : Nat
  artist : PlaylistTrackArtist
  album : PlaylistTrackAlbum
  deriving Repr, DecidableEq

def decodePlaylistTrack : Json → Outcome PlaylistTrack
  | .obj fs => do
    let id ← reqField decodeU32 fs "id"
    let readable ← reqField decodeBool fs "readable"
    let title ← reqField decodeString fs "title"
    let title_short ← reqField decodeString fs "title_short"
    let title_version ← reqField decodeString fs "title_version"
    let unseen ← defField false decodeBool fs "unseen"
    let link ← reqField decodeString fs "link"
    let duration_in_seconds ← reqField decodeU32 fs "duration"
    let rank ← reqField decodeU32 fs "rank"
    let has_explicit_lyrics ← reqField decodeBool fs "explicit_lyrics"
    let preview_url ← defField "" decodeString fs "preview_url"
    let added_on ← reqField decodeU64 fs "time_add"
    let artist ← reqField decodePlaylistTrackArtist fs "artist"
    let album ← reqField decodePlaylistTrackAlbum fs "album"
    pure ⟨id, readable, title, title_short, title_version, unseen, link,
      duration_in_seconds, rank, has_explicit_lyrics, preview_url, added_on,
      artist, album⟩
  | _ => .err "invalid type: expected struct PlaylistTrack"

/-- `playlist::Playlist` (playlist.rs). -/
structure Playlist where
  id : Nat
  title : String
  description : String
  duration_in_seconds : Nat
  is_public : Bool
  is_loved_track : Bool
  is_collaborative : Bool
  rating : Option Nat
  nb_tracks : Nat
  unseen_track_count : Option Nat
  fans : Nat
  link : String
  share_link : String
  picture : String
  picture_small : String
  picture_medium : String
  picture_big : String
  picture_xl : String
  checksum : String
  creator : PlaylistUser
  tracks : List PlaylistTrack
  deriving Repr, DecidableEq

def decodePlaylist : Json → Outcome Playlist
  | .obj fs => do
    let id ← reqField decodeU32 fs "id"
    let title ← reqField decodeString fs "title"
    let description ← reqField decodeString fs "description"
    let duration_in_seconds ← reqField decodeU32 fs "duration"
    let is_public ← reqField decodeBool fs "public"
    let is_loved_track ← reqField decodeBool fs "is_loved_track"
    let is_collaborative ← reqField decodeBool fs "collaborative"
    let rating ← optField decodeU32 fs "rating"
    let nb_tracks ← reqField decodeU32 fs "nb_tracks"
    let unseen_track_count ← optField decodeU32 fs "unseen_track_count"
    let fans ← reqField decodeU32 fs "fans"
    let link ← reqField decodeString fs "link"
    let share_link ← reqField decodeString fs "share"
    let picture ← reqField decodeString fs "picture"
    let picture_small ← reqField decodeString fs "picture_small"
    let picture_medium ← reqField decodeString fs "picture_medium"
    let picture_big ← reqField decodeString fs "picture_big"
    let picture_xl ← reqField decodeString fs "picture_xl"
    let checksum ← reqField decodeString fs "checksum"
    let creator ← reqField decodePlaylistUser fs "creator"
    let tracks ← reqField (fun v => (deserialize_map decodePlaylistTrack v).map Prod.fst) fs "tracks"
    pure ⟨id, title, description, duration_in_seconds, is_public,
      is_loved_track, is_collaborative, rating, nb_tracks,
      unseen_track_count, fans, link, share_link, picture, picture_small,
      picture_medium, picture_big, picture_xl, checksum, creator, tracks⟩
  | _ => .err "invalid type: expected struct Playlist"

def Playlist.new : Body → Outcome Playlist := newOf decodePlaylist

def get_playlist_api (id : Nat) : String :=
  "https://api.deezer.com/playlist/" ++ toString id

def Playlist.get (w : World) (id : Nat) : Outcome Playlist :=
  fetch w (get_playlist_api id) Playlist.new

/-- `chart::ChartTrackArtist` (chart.rs). -/
structure ChartTrackArtist where
  id : Nat
  name : String
  link : String
  picture : String
  picture_small : String
  picture_medium : String
  picture_big : String
  picture_xl : String
  has_radio : Bool
  deriving Repr, DecidableEq

def decodeChartTrackArtist : Json → Outcome ChartTrackArtist
  | .obj fs => do
    let id ← reqField decodeU32 fs "id"
    let name ← reqField decodeString fs "name"
    let link ← reqField decodeString fs "link"
    let picture ← reqField decodeString fs "picture"
    let picture_small ← reqField decodeString fs "picture_small"
    let picture_medium ← reqField decodeString fs "picture_medium"
    let picture_big ← reqField decodeString fs "picture_big"
    let picture_xl ← reqField decodeString fs "picture_xl"
    let has_radio ← reqField decodeBool fs "radio"
    pure ⟨id, name, link, picture, picture_small, picture_medium,
      picture_big, picture_xl, has_radio⟩
  | _ => .err "invalid type: expected struct ChartTrackArtist"

/-- `chart::ChartTrackAlbum` (chart.rs). -/
structure ChartTrackAlbum where
  id : Nat
  title : String
  cover : String
  cover_small : String
  cover_medium : String
  cover_big : String
  cover_xl : String
  deriving Repr, DecidableEq

def decodeChartTrackAlbum : Json → Outcome ChartTrackAlbum
  | .obj fs => do
    let id ← reqField decodeU32 fs "id"
    let title ← reqField decodeString fs "title"
    let cover ← reqField decodeString fs "cover"
    let cover_small ← reqField decodeString fs "cover_small"
    let cover_medium ← reqField decodeString fs "cover_medium"
    let cover_big ← reqField decodeString fs "cover_big"
    let cover_xl ← reqField decodeString fs "cover_xl"
    pure ⟨id, title, cover, cover_small, cover_medium, cover_big, cover_xl⟩
  | _ => .err "invalid type: expected struct ChartTrackAlbum"

/-- `chart::ChartTrack` (chart.rs). -/
structure ChartTrack where
  id : Nat
  title : String
  title_short : String
  title_version : String
  link : String
  duration_in_seconds : Nat
  rank : Nat
  has_explicit_lyrics : Bool
  preview_url : Option String
  position : Nat
  artist : ChartTrackArtist
  album : ChartTrackAlbum
  deriving Repr, DecidableEq

def decodeChartTrack : Json → Outcome ChartTrack
  | .obj fs => do
    let id ← reqField decodeU32 fs "id"
    let title ← reqField decodeString fs "title"
    let title_short ← reqField decodeString fs "title_short"
    let title_version ← reqField decodeString fs "title_version"
    let link ← reqField decodeString fs "link"
    let duration_in_seconds ← reqField decodeU32 fs "duration"
    let rank ← reqField decodeU32 fs "rank"
    let has_explicit_lyrics ← reqField decodeBool fs "explicit_lyrics"
    let preview_url ← optField decodeString fs "preview_url"
    let position ← reqField decodeU32 fs "position"
    let artist ← reqField decodeChartTrackArtist fs "artist"
    let album ← reqField decodeChartTrackAlbum fs "album"
    pure ⟨id, title, title_short, title_version, link, duration_in_seconds,
      rank, has_explicit_lyrics, preview_url, position, artist, album⟩
  | _ => .err "invalid type: expected struct ChartTrack"

/-- `chart::ChartAlbumArtist` (chart.rs). -/
structure ChartAlbumArtist where
  id : Nat
  name : String
  link : String
  picture : String
  picture_small : String
  picture_medium : String
  picture_big : String
  picture_xl : String
  has_radio : Bool
  deriving Repr, DecidableEq

def decodeChartAlbumArtist : Json → Outcome ChartAlbumArtist
  | .obj fs => do
    let id ← reqField decodeU32 fs "id"
    let name ← reqField decodeString fs "name"
    let link ← reqField decodeString fs "link"
    let picture ← reqField decodeString fs "picture"
    let picture_small ← reqField decodeString fs "picture_small"
    let picture_medium ← reqField decodeString fs "picture_medium"
    let picture_big ← reqField decodeString fs "picture_big"
    let picture_xl ← reqField decodeString fs "picture_xl"
    let has_radio ← reqField decodeBool fs "radio"
    pure ⟨id, name, link, picture, picture_small, picture_medium,
      picture_big, picture_xl, has_radio⟩
  | _ => .err "invalid type: expected struct ChartAlbumArtist"

/-- `chart::ChartAlbum` (chart.rs). -/
structure ChartAlbum where
  id : Nat
  title : String
  cover : String
  cover_small : String
  cover_medium : String
  cover_big : String
  cover_xl : String
  record_type : String
  has_explicit_lyrics : Bool
  position : Nat
  artist : ChartAlbumArtist
  deriving Repr, DecidableEq

def decodeChartAlbum : Json → Outcome ChartAlbum
  | .obj fs => do
    let id ← reqField decodeU32 fs "id"
    let title ← reqField decodeString fs "title"
    let cover ← reqField decodeString fs "cover"
    let cover_small ← reqField decodeString fs "cover_small"
    let cover_medium ← reqField decodeString fs "cover_medium"
    let cover_big ← reqField decodeString fs "cover_big"
    let cover_xl ← reqField decodeString fs "cover_xl"
    let record_type ← reqField decodeString fs "record_type"
    let has_explicit_lyrics ← reqField decodeBool fs "explicit_lyrics"
    let position ← reqField decodeU32 fs "position"
    let artist ← reqField decodeChartAlbumArtist fs "artist"
    pure ⟨id, title, cover, cover_small, cover_medium, cover_big, cover_xl,
      record_type, has_explicit_lyrics, position, artist⟩
  | _ => .err "invalid type: expected struct ChartAlbum"

/-- `chart::ChartArtist` (chart.rs). -/
structure ChartArtist where
  id : Nat
  name : String
  link : String
  picture : String
  picture_small : String
  picture_medium : String
  picture_big : String
  picture_xl : String
  has_radio : Bool
  position : Nat
  deriving Repr, DecidableEq

def decodeChartArtist : Json → Outcome ChartArtist
  | .obj fs => do
    let id ← reqField decodeU32 fs "id"
    let name ← reqField decodeString fs "name"
    let link ← reqField decodeString fs "link"
    let picture ← reqField decodeString fs "picture"
    let picture_small ← reqField decodeString fs "picture_small"
    let picture_medium ← reqField decodeString fs "picture_medium"
    let picture_big ← reqField decodeString fs "picture_big"
    let picture_xl ← reqField decodeString fs "picture_xl"
    let has_radio ← reqField decodeBool fs "radio"
    let position ← reqField decodeU32 fs "position"
    pure ⟨id, name, link, picture, picture_small, picture_medium,
      picture_big, picture_xl, has_radio, position⟩
  | _ => .err "invalid type: expected struct ChartArtist"

/-- `chart::ChartPlaylistUser` (chart.rs). -/
structure ChartPlaylistUser where
  id : Nat
  name : String
  deriving Repr, DecidableEq

def decodeChartPlaylistUser : Json → Outcome ChartPlaylistUser
  | .obj fs => do
    let id ← reqField decodeU32 fs "id"
    let name ← reqField decodeString fs "name"
    pure ⟨id, name⟩
  | _ => .err "invalid type: expected struct ChartPlaylistUser"

/-- `chart::ChartPlaylist` (chart.rs). -/
structure ChartPlaylist where
  id : Nat
  title : String
  is_public : Bool
  link : String
  picture : String
  picture_small : String
  picture_medium : String
  picture_big : String
  picture_xl : String
  position : Nat
  user : ChartPlaylistUser
  deriving Repr, DecidableEq

def decodeChartPlaylist : Json → Outcome ChartPlaylist
  | .obj fs => do
    let id ← reqField decodeU32 fs "id"
    let title ← reqField decodeString fs "title"
    let is_public ← reqField decodeBool fs "public"
    let link ← reqField decodeString fs "link"
    let picture ← reqField decodeString fs "picture"
    let picture_small ← reqField decodeString fs "picture_small"
    let picture_medium ← reqField decodeString fs "picture_medium"
    let picture_big ← reqField decodeString fs "picture_big"
    let picture_xl ← reqField decodeString fs "picture_xl"
    let position ← defField 0 decodeU32 fs "position"
    let user ← reqField decodeChartPlaylistUser fs "user"
    pure ⟨id, title, is_public, link, picture, picture_small, picture_medium,
      picture_big, picture_xl, position, user⟩
  | _ => .err "invalid type: expected struct ChartPlaylist"

/-- `chart::Chart` (chart.rs): four sub-collections, each decoded with the
strict envelope decoder `deserialize_chart`. -/
structure Chart where
  tracks : List ChartTrack
  albums : List ChartAlbum
  artists : List ChartArtist
  playlists : List ChartPlaylist
  deriving Repr, DecidableEq

def decodeChart : Json → Outcome Chart
  | .obj fs => do
    let tracks ← reqField (deserialize_chart decodeChartTrack) fs "tracks"
    let albums ← reqField (deserialize_chart decodeChartAlbum) fs "albums"
    let artists ← reqField (deserialize_chart decodeChartArtist) fs "artists"
    let playlists ← reqField (deserialize_chart decodeChartPlaylist) fs "playlists"
    pure ⟨tracks, albums, artists, playlists⟩
  | _ => .err "invalid type: expected struct Chart"

def Chart.new : Body → Outcome Chart := newOf decodeChart

def get_chart_api : String := "https://api.deezer.com/chart"

def Chart.get (w : World) : Outcome Chart :=
  fetch w get_chart_api Chart.new

/-! ## `get_full` operations of the shortened/reference records

Each one is `FullType::get(self.id)` in the source. -/

def track.ContributorArtist.get_full (w : World) (self : track.ContributorArtist) : Outcome Artist :=
  Artist.get w self.id

def TrackArtist.get_full (w : World) (self : TrackArtist) : Outcome Artist :=
  Artist.get w self.id

def TrackAlbum.get_full (w : World) (self : TrackAlbum) : Outcome Album :=
  Album.get w self.id

def album.ContributorArtist.get_full (w : World) (self : album.ContributorArtist) : Outcome Artist :=
  Artist.get w self.id

def AlbumArtist.get_full (w : World) (self : AlbumArtist) : Outcome Artist :=
  Artist.get w self.id

def AlbumTrackArtist.get_full (w : World) (self : AlbumTrackArtist) : Outcome Artist :=
  Artist.get w self.id

def AlbumTrack.get_full (w : World) (self : AlbumTrack) : Outcome Track :=
  Track.get w self.id

def AlbumGenre.get_full (w : World) (self : AlbumGenre) : Outcome Genre :=
  Genre.get w self.id

def PlaylistUser.get_full (w : World) (self : PlaylistUser) : Outcome User :=
  User.get w self.id

def PlaylistTrack.get_full (w : World) (self : PlaylistTrack) : Outcome Track :=
  Track.get w self.id

def PlaylistTrackArtist.get_full (w : World) (self : PlaylistTrackArtist) : Outcome Artist :=
  Artist.get w self.id

def PlaylistTrackAlbum.get_full (w : World) (self : PlaylistTrackAlbum) : Outcome Album :=
  Album.get w self.id

def ChartTrack.get_full (w : World) (self : ChartTrack) : Outcome Track :=
  Track.get w self.id

def ChartTrackArtist.get_full (w : World) (self : ChartTrackArtist) : Outcome Artist :=
  Artist.get w self.id

def ChartTrackAlbum.get_full (w : World) (self : ChartTrackAlbum) : Outcome Album :=
  Album.get w self.id

def ChartAlbum.get_full (w : World) (self : ChartAlbum) : Outcome Album :=
  Album.get w self.id

def ChartAlbumArtist.get_full (w : World) (self : ChartAlbumArtist) : Outcome Artist :=
  Artist.get w self.id

def ChartArtist.get_full (w : World) (self : ChartArtist) : Outcome Artist :=
  Artist.get w self.id

def ChartPlaylist.get_full (w : World) (self : ChartPlaylist) : Outcome Playlist :=
  Playlist.get w self.id

def ChartPlaylistUser.get_full (w : World) (self : ChartPlaylistUser) : Outcome User :=
  User.get w self.id

/-! ## The shared facade (`api/mod.rs`)

The `Api` struct holds one reusable `reqwest::Client`; each method runs
`self.client.get(&url).send().unwrap().text().unwrap()` and the resource's
constructor, the same pipeline as the standalone fetchers. -/

structure Api where
  client : World

def Api.new (client : World) : Api := ⟨client⟩

def Api.get_track (self : Api) (id : Nat) : Outcome Track :=
  fetch self.client (get_track_api id) Track.new

def Api.get_artist (self : Api) (id : Nat) : Outcome Artist :=
  fetch self.client (get_artist_api id) Artist.new

def Api.get_album (self : Api) (id : Nat) : Outcome Album :=
  fetch self.client (get_album_api id) Album.new

def Api.get_genre (self : Api) (id : Nat) : Outcome Genre :=
  fetch self.client (get_genre_api id) Genre.new

def Api.get_comment (self : Api) (id : Nat) : Outcome Comment :=
  fetch self.client (get_comment_api id) Comment.new

def Api.get_user (self : Api) (id : Nat) : Outcome User :=
  fetch self.client (get_user_api id) User.new

def Api.get_playlist (self : Api) (id : Nat) : Outcome Playlist :=
  fetch self.client (get_playlist_api id) Playlist.new

def Api.get_editorial (self : Api) (id : Nat) : Outcome Editorial :=
  fetch self.client (get_editorial_api id) Editorial.new

def Api.get_radio (self : Api) (id : Nat) : Outcome Radio :=
  fetch self.client (get_radio_api id) Radio.new

def Api.get_info (self : Api) : Outcome Info :=
  fetch self.client get_info_api Info.new

def Api.get_chart (self : Api) : Outcome Chart :=
  fetch self.client get_chart_api Chart.new

def Api.get_options (self : Api) : Outcome Options :=
  fetch self.client get_options_api Options.new

/-! ## Concrete inputs used to exercise the theorems -/

/-- Three albums-genre elements, the middle one malformed. -/
def c1Elems : List Json :=
  [Json.obj [("id", Json.num 132), ("name", Json.str "Pop"), ("picture", Json.str "p1")],
   Json.num 7,
   Json.obj [("id", Json.num 152), ("name", Json.str "Rock"), ("picture", Json.str "p3")]]

def c1Envelope : Json := Json.obj [("data", Json.arr c1Elems)]

def c2GoodElems : List Json :=
  [Json.obj [("id", Json.num 4), ("name", Json.str "ana")],
   Json.obj [("id", Json.num 5), ("name", Json.str "bob")]]

def c2GoodEnvelope : Json := Json.obj [("data", Json.arr c2GoodElems)]

def c2BadElems : List Json :=
  [Json.obj [("id", Json.num 4), ("name", Json.str "ana")], Json.num 3]

def c2BadEnvelope : Json := Json.obj [("data", Json.arr c2BadElems)]

/-- A complete, well-formed `Album` document whose `genre_id` is the given
integer (empty genre/track/contributor lists, no `alternative`). -/
def c3AlbumJson (gid : Int) : Json :=
  Json.obj [("id", Json.num 302127), ("title", Json.str "Discovery"),
    ("upc", Json.str "724384960650"), ("link", Json.str "lnk"),
    ("share", Json.str "shr"), ("cover", Json.str "c"),
    ("cover_small", Json.str "cs"), ("cover_medium", Json.str "cm"),
    ("cover_big", Json.str "cb"), ("cover_xl", Json.str "cx"),
    ("genre_id", Json.num gid), ("genres", Json.obj [("data", Json.arr [])]),
    ("label", Json.str "Daft Life Ltd."), ("nb_tracks", Json.num 14),
    ("duration", Json.num 3660), ("fans", Json.num 100), ("rating", Json.num 5),
    ("release_date", Json.str "2001-03-07"), ("record_type", Json.str "album"),
    ("available", Json.bool true), ("tracklist", Json.str "tl"),
    ("explicit_lyrics", Json.bool false), ("contributors", Json.arr []),
    ("artist", Json.obj [("id", Json.num 27), ("name", Json.str "Daft Punk"),
      ("picture", Json.str "p"), ("picture_small", Json.str "ps"),
      ("picture_medium", Json.str "pm"), ("picture_big", Json.str "pb"),
      ("picture_xl", Json.str "px")]),
    ("tracks", Json.obj [("data", Json.arr [])])]

/-- The record produced by `Album::new` on `c3AlbumJson gid` (with an inert
fallback on the unreachable failure branches). -/
def c3AlbumOf (gid : Int) : Album :=
  match Album.new (.json (c3AlbumJson gid)) with
  | .ok a => a
  | _ => ⟨0, "", "", "", "", "", "", "", "", "", none, [], "", 0, 0, 0, 0, "",
      "", false, none, "", false, [], ⟨0, "", "", "", "", "", ""⟩, []⟩

/-- A complete `PlaylistTrack` document with no `preview_url` and no
`unseen` member. -/
def c9PlaylistTrackJson : Json :=
  Json.obj [("id", Json.num 3135556), ("readable", Json.bool true),
    ("title", Json.str "Harder"), ("title_short", Json.str "Harder"),
    ("title_version", Json.str ""), ("link", Json.str "lnk"),
    ("duration", Json.num 224), ("rank", Json.num 10),
    ("explicit_lyrics", Json.bool false), ("time_add", Json.num 1500000000),
    ("artist", Json.obj [("id", Json.num 27), ("name", Json.str "Daft Punk"),
      ("link", Json.str "al")]),
    ("album", Json.obj [("id", Json.num 302127), ("title", Json.str "Discovery"),
      ("cover", Json.str "c"), ("cover_small", Json.str "cs"),
      ("cover_medium", Json.str "cm"), ("cover_big", Json.str "cb"),
      ("cover_xl", Json.str "cx")])]

def c9PlaylistTrackRec : PlaylistTrack :=
  match decodePlaylistTrack c9PlaylistTrackJson with
  | .ok v => v
  | _ => ⟨0, false, "", "", "", false, "", 0, 0, false, "", 0, ⟨0, "", ""⟩,
      ⟨0, "", "", "", "", "", ""⟩⟩

/-- A complete `ChartPlaylist` document with no `position` member. -/
def c9ChartPlaylistJson : Json :=
  Json.obj [("id", Json.num 908622995), ("title", Json.str "Hits"),
    ("public", Json.bool true), ("link", Json.str "lnk"),
    ("picture", Json.str "p"), ("picture_small", Json.str "ps"),
    ("picture_medium", Json.str "pm"), ("picture_big", Json.str "pb"),
    ("picture_xl", Json.str "px"),
    ("user", Json.obj [("id", Json.num 12), ("name", Json.str "deezer")])]

def c9ChartPlaylistRec : ChartPlaylist :=
  match decodeChartPlaylist c9ChartPlaylistJson with
  | .ok v => v
  | _ => ⟨0, "", false, "", "", "", "", "", "", 0, ⟨0, ""⟩⟩

/-- A complete `Track` document with no `unseen`, `preview_url` or
`alternative` member. -/
def c9TrackJson : Json :=
  Json.obj [("id", Json.num 912486), ("readable", Json.bool true),
    ("title", Json.str "Harder, Better, Faster, Stronger"),
    ("title_short", Json.str "Harder"), ("title_version", Json.str ""),
    ("isrc", Json.str "GBDUW0000059"), ("link", Json.str "lnk"),
    ("share", Json.str "shr"), ("duration", Json.num 224),
    ("track_position", Json.num 4), ("disk_number", Json.num 1),
    ("rank", Json.num 956167), ("release_date", Json.str "2001-03-07"),
    ("explicit_lyrics", Json.bool false),
    ("bpm", Json.num 123), ("gain", Json.num 0),
    ("available_countries", Json.arr [Json.str "PT", Json.str "FR"]),
    ("contributors", Json.arr []),
    ("artist", Json.obj [("id", Json.num 27), ("name", Json.str "Daft Punk"),
      ("link", Json.str "al"), ("share", Json.str "as"),
      ("picture", Json.str "p"), ("picture_small", Json.str "ps"),
      ("picture_medium", Json.str "pm"), ("picture_big", Json.str "pb"),
      ("picture_xl", Json.str "px"), ("radio", Json.bool true),
      ("tracklist", Json.str "tl")]),
    ("album", Json.obj [("id", Json.num 302127), ("title", Json.str "Discovery"),
      ("link", Json.str "bl"), ("cover", Json.str "c"),
      ("cover_small", Json.str "cs"), ("cover_medium", Json.str "cm"),
      ("cover_big", Json.str "cb"), ("cover_xl", Json.str "cx"),
      ("release_date", Json.str "2001-03-07")])]

def c9TrackRec : Track :=
  match decodeTrack c9TrackJson with
  | .ok v => v
  | _ => ⟨0, false, "", "", "", none, "", "", "", 0, 0, 0, 0, "", false, none,
      0, 0, [], none, [], ⟨0, "", "", "", "", "", "", "", "", none, none, false, ""⟩,
      ⟨0, "", "", "", "", "", "", "", ""⟩⟩

/-- A complete `TrackArtist` document with no `nb_album` or `nb_fan`
member. -/
def c9TrackArtistJson : Json :=
  Json.obj [("id", Json.num 27), ("name", Json.str "Daft Punk"),
    ("link", Json.str "al"), ("share", Json.str "as"),
    ("picture", Json.str "p"), ("picture_small", Json.str "ps"),
    ("picture_medium", Json.str "pm"), ("picture_big", Json.str "pb"),
    ("picture_xl", Json.str "px"), ("radio", Json.bool true),
    ("tracklist", Json.str "tl")]

def c9TrackArtistRec : TrackArtist :=
  match decodeTrackArtist c9TrackArtistJson with
  | .ok v => v
  | _ => ⟨0, "", "", "", "", "", "", "", "", none, none, false, ""⟩

/-- A complete `Playlist` document with no `rating` or
`unseen_track_count` member. -/
def c9PlaylistJson : Json :=
  Json.obj [("id", Json.num 908622995), ("title", Json.str "My Playlist"),
    ("description", Json.str "d"), ("duration", Json.num 3600),
    ("public", Json.bool true), ("is_loved_track", Json.bool false),
    ("collaborative", Json.bool false), ("nb_tracks", Json.num 0),
    ("fans", Json.num 3), ("link", Json.str "lnk"), ("share", Json.str "shr"),
    ("picture", Json.str "p"), ("picture_small", Json.str "ps"),
    ("picture_medium", Json.str "pm"), ("picture_big", Json.str "pb"),
    ("picture_xl", Json.str "px"), ("checksum", Json.str "cks"),
    ("creator", Json.obj [("id", Json.num 12), ("name", Json.str "deezer")]),
    ("tracks", Json.obj [("data", Json.arr [])])]

def c9PlaylistRec : Playlist :=
  match decodePlaylist c9PlaylistJson with
  | .ok v => v
  | _ => ⟨0, "", "", 0, false, false, false, none, 0, none, 0, "", "", "",
      "", "", "", "", "", ⟨0, ""⟩, []⟩

/-- A complete `ChartTrack` document with no `preview_url` member. -/
def c9ChartTrackJson : Json :=
  Json.obj [("id", Json.num 3135556), ("title", Json.str "Harder"),
    ("title_short", Json.str "Harder"), ("title_version", Json.str ""),
    ("link", Json.str "lnk"), ("duration", Json.num 224),
    ("rank", Json.num 956167), ("explicit_lyrics", Json.bool false),
    ("position", Json.num 1),
    ("artist", Json.obj [("id", Json.num 27), ("name", Json.str "Daft Punk"),
      ("link", Json.str "al"), ("picture", Json.str "p"),
      ("picture_small", Json.str "ps"), ("picture_medium", Json.str "pm"),
      ("picture_big", Json.str "pb"), ("picture_xl", Json.str "px"),
      ("radio", Json.bool true)]),
    ("album", Json.obj [("id", Json.num 302127), ("title", Json.str "Discovery"),
      ("cover", Json.str "c"), ("cover_small", Json.str "cs"),
      ("cover_medium", Json.str "cm"), ("cover_big", Json.str "cb"),
      ("cover_xl", Json.str "cx")])]

def c9ChartTrackRec : ChartTrack :=
  match decodeChartTrack c9ChartTrackJson with
  | .ok v => v
  | _ => ⟨0, "", "", "", "", 0, 0, false, none, 0,
      ⟨0, "", "", "", "", "", "", "", false⟩, ⟨0, "", "", "", "", "", ""⟩⟩

/-- A complete `Album` document with no `alternative` member. -/
def c9AlbumJson : Json :=
  Json.obj [("id", Json.num 302128), ("title", Json.str "Homework"),
    ("upc", Json.str "724384260958"), ("link", Json.str "lnk"),
    ("share", Json.str "shr"), ("cover", Json.str "c"),
    ("cover_small", Json.str "cs"), ("cover_medium", Json.str "cm"),
    ("cover_big", Json.str "cb"), ("cover_xl", Json.str "cx"),
    ("genre_id", Json.num 113), ("genres", Json.obj [("data", Json.arr [])]),
    ("label", Json.str "Daft Life Ltd."), ("nb_tracks", Json.num 16),
    ("duration", Json.num 4441), ("fans", Json.num 80), ("rating", Json.num 4),
    ("release_date", Json.str "1997-01-20"), ("record_type", Json.str "album"),
    ("available", Json.bool true), ("tracklist", Json.str "tl"),
    ("explicit_lyrics", Json.bool false), ("contributors", Json.arr []),
    ("artist", Json.obj [("id", Json.num 27), ("name", Json.str "Daft Punk"),
      ("picture", Json.str "p"), ("picture_small", Json.str "ps"),
      ("picture_medium", Json.str "pm"), ("picture_big", Json.str "pb"),
      ("picture_xl", Json.str "px")]),
    ("tracks", Json.obj [("data", Json.arr [])])]

def c9AlbumRec : Album :=
  match Album.new (.json c9AlbumJson) with
  | .ok a => a
  | _ => ⟨0, "", "", "", "", "", "", "", "", "", none, [], "", 0, 0, 0, 0, "",
      "", false, none, "", false, [], ⟨0, "", "", "", "", "", ""⟩, []⟩

/-- A complete `User` document with none of the nine `serde(default)`
members (`lastname`, `firstname`, `email`, `status`, `birthday`,
`inscription_date`, `gender`, `lang`, `is_kid`). -/
def c9UserJson : Json :=
  Json.obj [("id", Json.num 12), ("name", Json.str "deezer"),
    ("link", Json.str "lnk"), ("picture", Json.str "p"),
    ("picture_small", Json.str "ps"), ("picture_medium", Json.str "pm"),
    ("picture_big", Json.str "pb"), ("picture_xl", Json.str "px"),
    ("country", Json.str "PT"), ("tracklist", Json.str "tl")]

def c9UserRec : User :=
  match decodeUser c9UserJson with
  | .ok v => v
  | _ => ⟨0, "", "", "", "", 0, "", "", "", "", "", "", "", "", "", "", "",
      false, ""⟩

/-! ## Groundwork lemmas -/

@[simp] theorem Outcome.bind_eq_ok {x : Outcome α} {f : α → Outcome β} {b : β} :
    x >>= f = Outcome.ok b ↔ ∃ a, x = Outcome.ok a ∧ f a = Outcome.ok b := by
  cases x <;> simp [Bind.bind, Outcome.bind]

@[simp] theorem Outcome.pure_def (v : α) : (pure v : Outcome α) = Outcome.ok v := rfl

@[simp] theorem Outcome.map_eq_ok {x : Outcome α} {f : α → β} {b : β} :
    Outcome.map f x = Outcome.ok b ↔ ∃ a, x = Outcome.ok a ∧ f a = b := by
  cases x <;> simp [Outcome.map]

@[simp] theorem Outcome.map_eq_panic {x : Outcome α} {f : α → β} :
    Outcome.map f x = Outcome.panic ↔ x = Outcome.panic := by
  cases x <;> simp [Outcome.map]

@[simp] theorem Outcome.isErr_map (f : α → β) (x : Outcome α) :
    (Outcome.map f x).isErr = x.isErr := by
  cases x <;> rfl

@[simp] theorem Json.get_obj (fields : List (String × Json)) (key : String) :
    Json.get (Json.obj fields) key = lookupField fields key := rfl

@[simp] theorem Json.asArray_arr (xs : List Json) :
    Json.asArray (Json.arr xs) = some xs := rfl

theorem newOf_eq_ok {dec : Json → Outcome α} {j : Json} {v : α} :
    newOf dec (.json j) = .ok v ↔ dec j = .ok v := by
  cases h : dec j <;> simp [newOf, h]

@[simp] theorem newOf_isErr (dec : Json → Outcome α) (b : Body) :
    (newOf dec b).isErr = false := by
  cases b with
  | malformed => rfl
  | json j => cases h : dec j <;> simp [newOf, h, Outcome.isErr]

theorem fetch_mk_isErr (w : World) (url : String) (mk : Body → Outcome α)
    (h : ∀ b, (mk b).isErr = false) : (fetch w url mk).isErr = false := by
  unfold fetch
  cases w url with
  | transportErr => rfl
  | textErr => rfl
  | body b => exact h b

theorem fetch_newOf_isErr (w : World) (url : String) (dec : Json → Outcome α) :
    (fetch w url (newOf dec)).isErr = false :=
  fetch_mk_isErr w url (newOf dec) (newOf_isErr dec)

theorem albumNew_isErr (b : Body) : (Album.new b).isErr = false := by
  unfold Album.new
  rw [Outcome.isErr_map]
  exact newOf_isErr decodeAlbum b

/-! ## Behaviour of the envelope decoders -/

theorem deserialize_mapElems_eq (dec : Json → Outcome α) (xs : List Json)
    (hnp : ∀ o ∈ xs, dec o ≠ .panic) :
    deserialize_mapElems dec xs =
      .ok (xs.filterMap (fun o => (dec o).toOption),
           xs.filterMap (fun o => (dec o).errMsg)) := by
  induction xs with
  | nil => rfl
  | cons o rest ih =>
    have hrest : ∀ x ∈ rest, dec x ≠ .panic := fun x hm => hnp x (List.mem_cons_of_mem o hm)
    cases hd : dec o with
    | ok v =>
      simp [deserialize_mapElems, hd, ih hrest, Outcome.map, Outcome.toOption, Outcome.errMsg]
    | err e =>
      simp [deserialize_mapElems, hd, ih hrest, Outcome.map, Outcome.toOption, Outcome.errMsg]
    | panic => exact absurd hd (hnp o (List.mem_cons_self o rest))

theorem decodeAllOrPanic_all_ok (dec : Json → Outcome α) (xs : List Json)
    (hok : ∀ o ∈ xs, (dec o).isOk = true) :
    decodeAllOrPanic dec xs = .ok (xs.filterMap (fun o => (dec o).toOption)) ∧
      (xs.filterMap (fun o => (dec o).toOption)).length = xs.length := by
  induction xs with
  | nil => exact ⟨rfl, rfl⟩
  | cons o rest ih =>
    have hrest : ∀ x ∈ rest, (dec x).isOk = true := fun x hm => hok x (List.mem_cons_of_mem o hm)
    obtain ⟨ih1, ih2⟩ := ih hrest
    cases hd : dec o with
    | ok v =>
      constructor
      · simp [decodeAllOrPanic, hd, ih1, Outcome.map, Outcome.toOption]
      · simpa [hd, Outcome.toOption] using ih2
    | err e =>
      have := hok o (List.mem_cons_self o rest)
      rw [hd] at this
      simp [Outcome.isOk] at this
    | panic =>
      have := hok o (List.mem_cons_self o rest)
      rw [hd] at this
      simp [Outcome.isOk] at this

theorem decodeAllOrPanic_of_err (dec : Json → Outcome α) (xs : List Json)
    (o : Json) (e : String) (ho : o ∈ xs) (he : dec o = .err e) :
    decodeAllOrPanic dec xs = .panic := by
  induction xs with
  | nil => cases ho
  | cons x rest ih =>
    cases hd : dec x with
    | ok v =>
      rcases List.mem_cons.mp ho with rfl | hm
      · rw [hd] at he; cases he
      · simp [decodeAllOrPanic, hd, ih hm, Outcome.map]
    | err e2 => simp [decodeAllOrPanic, hd]
    | panic => simp [decodeAllOrPanic, hd]

/-- C1: the lenient envelope decoder `deserialize_map`, on a JSON value
whose `data` member is an array, returns `Ok` of exactly the elements that
decode successfully, in source-array order; each failing element is skipped
and its error message emitted on the side channel, and the result is never
an error. -/
theorem c1_lenient_envelope_skips_failures (dec : Json → Outcome α) (j : Json)
    (xs : List Json) (hdata : j.get "data" = some (.arr xs))
    (hnp : ∀ o ∈ xs, dec o ≠ .panic) :
    deserialize_map dec j =
      .ok (xs.filterMap (fun o => (dec o).toOption),
           xs.filterMap (fun o => (dec o).errMsg)) := by
  unfold deserialize_map
  rw [hdata]
  simpa [Json.asArray] using deserialize_mapElems_eq dec xs hnp

/-- Witness for C1: decoding `{"data": [g1, bad, g3]}` into album genres,
where only `bad` fails, yields the two good records (length 2, source
order) with one side-channel diagnostic — not an error. -/
theorem c1_witness :
    deserialize_map decodeAlbumGenre c1Envelope =
      .ok ([⟨132, "Pop", "p1"⟩, ⟨152, "Rock", "p3"⟩],
           ["invalid type: expected struct AlbumGenre"]) := by
  rw [c1_lenient_envelope_skips_failures decodeAlbumGenre c1Envelope c1Elems rfl (by decide)]
  rfl

/-- C2: the strict envelope decoder `deserialize_chart`, on a JSON value
whose `data` member is an array: if every element decodes, it returns the
full ordered sequence of length exactly `n`; if any element fails to
decode, the whole decode dies (the element is `.unwrap()`ed, a panic), so
no partial sequence is ever returned. -/
theorem c2_strict_envelope_all_or_nothing (dec : Json → Outcome α) (j : Json)
    (xs : List Json) (hdata : j.get "data" = some (.arr xs)) :
    ((∀ o ∈ xs, (dec o).isOk = true) →
        deserialize_chart dec j = .ok (xs.filterMap (fun o => (dec o).toOption)) ∧
        (xs.filterMap (fun o => (dec o).toOption)).length = xs.length) ∧
    (∀ o e, o ∈ xs → dec o = .err e → deserialize_chart dec j = .panic) := by
  constructor
  · intro hok
    have h := decodeAllOrPanic_all_ok dec xs hok
    unfold deserialize_chart
    rw [hdata]
    simpa [Json.asArray] using h
  · intro o e ho he
    unfold deserialize_chart
    rw [hdata]
    simpa [Json.asArray] using decodeAllOrPanic_of_err dec xs o e ho he

/-- Witness for C2: with chart-playlist users as elements, an all-good
`data` array of length 2 decodes to the full 2-element sequence in order,
and the same envelope with one bad element makes the whole decode panic. -/
theorem c2_witness :
    (deserialize_chart decodeChartPlaylistUser c2GoodEnvelope =
        .ok [⟨4, "ana"⟩, ⟨5, "bob"⟩]) ∧
    (deserialize_chart decodeChartPlaylistUser c2BadEnvelope = .panic) := by
  constructor
  · have h := (c2_strict_envelope_all_or_nothing decodeChartPlaylistUser
      c2GoodEnvelope c2GoodElems rfl).1 (by decide)
    rw [h.1]
    rfl
  · exact (c2_strict_envelope_all_or_nothing decodeChartPlaylistUser
      c2BadEnvelope c2BadElems rfl).2
      (Json.num 3) "invalid type: expected struct ChartPlaylistUser"
      (by simp [c2BadElems]) rfl

/-- Counterexample for C8: no single envelope decoder accepts both input
shapes.  The lenient decoder used for the album-genre list field panics on
a bare top-level array instead of extracting its elements, and the
offer-list decoder panics on an object containing a `data` array. -/
theorem c8_counterexample :
    deserialize_map decodeAlbumGenre (Json.arr []) = .panic ∧
    deserialize_offers (Json.obj [("data", Json.arr [])]) = .panic :=
  ⟨rfl, rfl⟩

/-- C8 (amended): the repository has three envelope decoders, not one.
`deserialize_map` (lenient) and `deserialize_chart` (strict) are generic
over the element type but accept only the object-with-`data`-key shape and
panic on a bare array; `deserialize_offers` is `Offer`-specific and accepts
only the bare-array shape, panicking on any object; on a bare array it
decodes the elements in order. -/
theorem c8_amended_three_decoders :
    (∀ (α : Type) (dec : Json → Outcome α) (xs : List Json),
        deserialize_map dec (Json.arr xs) = .panic) ∧
    (∀ (α : Type) (dec : Json → Outcome α) (xs : List Json),
        deserialize_chart dec (Json.arr xs) = .panic) ∧
    (∀ fields : List (String × Json), deserialize_offers (Json.obj fields) = .panic) ∧
    (deserialize_offers (Json.arr
        [Json.obj [("id", Json.num 1), ("name", Json.str "Deezer Premium"),
                   ("amount", Json.str "9.99"), ("currency", Json.str "EUR"),
                   ("displayed_amount", Json.str "9.99e"), ("tc", Json.str "t"),
                   ("tc_html", Json.str "th"), ("tc_txt", Json.str "tt"),
                   ("try_and_buy", Json.num 15)]]) =
      .ok [⟨1, "Deezer Premium", "9.99", "EUR", "9.99e", "t", "th", "tt", 15⟩]) := by
  refine ⟨fun α dec xs => rfl, fun α dec xs => rfl, fun fields => rfl, ?_⟩
  rfl

/-- C10: on an envelope-shape mismatch, every envelope decoder panics and
never returns a decode error: `deserialize_map` and `deserialize_chart`
panic when there is no `data` member or when the `data` member is not an
array, and `deserialize_offers` panics when the value is not a bare
array. -/
theorem c10_envelope_shape_mismatch_panics (dec : Json → Outcome α) (j : Json) :
    (j.get "data" = none →
        deserialize_map dec j = .panic ∧ deserialize_chart dec j = .panic) ∧
    (∀ d, j.get "data" = some d → d.asArray = none →
        deserialize_map dec j = .panic ∧ deserialize_chart dec j = .panic) ∧
    (j.asArray = none → deserialize_offers j = .panic) := by
  refine ⟨fun h => ⟨?_, ?_⟩, fun d hd ha => ⟨?_, ?_⟩, fun h => ?_⟩
  · simp only [deserialize_map, h]
  · simp only [deserialize_chart, h]
  · simp only [deserialize_map, hd, ha]
  · simp only [deserialize_chart, hd, ha]
  · simp only [deserialize_offers, h]

/-- Witness for C10: an object without `data`, an object whose `data` is a
number, and a non-array value for the offers decoder all panic. -/
theorem c10_witness :
    (deserialize_map decodeOffer (Json.obj []) = .panic ∧
     deserialize_chart decodeOffer (Json.obj []) = .panic) ∧
    (deserialize_map decodeOffer (Json.obj [("data", Json.num 3)]) = .panic ∧
     deserialize_chart decodeOffer (Json.obj [("data", Json.num 3)]) = .panic) ∧
    (deserialize_offers (Json.num 3) = .panic) := by
  refine ⟨(c10_envelope_shape_mismatch_panics decodeOffer (Json.obj [])).1 rfl, ?_, ?_⟩
  · exact (c10_envelope_shape_mismatch_panics decodeOffer
      (Json.obj [("data", Json.num 3)])).2.1 (Json.num 3) rfl rfl
  · exact (c10_envelope_shape_mismatch_panics decodeOffer (Json.num 3)).2.2 rfl

/-- C4: every shortened/reference record's `get_full` is the top-level
fetcher of the corresponding full resource type applied to the embedded
id — same URL, same one-shot fetch, same decoded record — for all 21
`get_full` operations in the crate. -/
theorem c4_get_full_equiv (w : World) :
    (∀ t : AlbumTrack, AlbumTrack.get_full w t = Track.get w t.id) ∧
    (∀ t : ChartTrack, ChartTrack.get_full w t = Track.get w t.id) ∧
    (∀ t : PlaylistTrack, PlaylistTrack.get_full w t = Track.get w t.id) ∧
    (∀ x : track.ContributorArtist, track.ContributorArtist.get_full w x = Artist.get w x.id) ∧
    (∀ x : album.ContributorArtist, album.ContributorArtist.get_full w x = Artist.get w x.id) ∧
    (∀ x : TrackArtist, TrackArtist.get_full w x = Artist.get w x.id) ∧
    (∀ x : AlbumArtist, AlbumArtist.get_full w x = Artist.get w x.id) ∧
    (∀ x : AlbumTrackArtist, AlbumTrackArtist.get_full w x = Artist.get w x.id) ∧
    (∀ x : PlaylistTrackArtist, PlaylistTrackArtist.get_full w x = Artist.get w x.id) ∧
    (∀ x : ChartTrackArtist, ChartTrackArtist.get_full w x = Artist.get w x.id) ∧
    (∀ x : ChartAlbumArtist, ChartAlbumArtist.get_full w x = Artist.get w x.id) ∧
    (∀ x : ChartArtist, ChartArtist.get_full w x = Artist.get w x.id) ∧
    (∀ b : TrackAlbum, TrackAlbum.get_full w b = Album.get w b.id) ∧
    (∀ b : PlaylistTrackAlbum, PlaylistTrackAlbum.get_full w b = Album.get w b.id) ∧
    (∀ b : ChartTrackAlbum, ChartTrackAlbum.get_full w b = Album.get w b.id) ∧
    (∀ b : ChartAlbum, ChartAlbum.get_full w b = Album.get w b.id) ∧
    (∀ g : AlbumGenre, AlbumGenre.get_full w g = Genre.get w g.id) ∧
    (∀ u : CommentAuthor, CommentAuthor.get_full w u = User.get w u.id) ∧
    (∀ u : PlaylistUser, PlaylistUser.get_full w u = User.get w u.id) ∧
    (∀ u : ChartPlaylistUser, ChartPlaylistUser.get_full w u = User.get w u.id) ∧
    (∀ p : ChartPlaylist, ChartPlaylist.get_full w p = Playlist.get w p.id) :=
  ⟨fun _ => rfl, fun _ => rfl, fun _ => rfl, fun _ => rfl, fun _ => rfl,
   fun _ => rfl, fun _ => rfl, fun _ => rfl, fun _ => rfl, fun _ => rfl,
   fun _ => rfl, fun _ => rfl, fun _ => rfl, fun _ => rfl, fun _ => rfl,
   fun _ => rfl, fun _ => rfl, fun _ => rfl, fun _ => rfl, fun _ => rfl,
   fun _ => rfl⟩

/-- C5: for every resource type, the facade method on `Api` and the
standalone per-type fetcher are equivalent entry points: same URL from the
same id, one GET through the same pipeline, same constructor on the body,
hence identical results over any HTTP world. -/
theorem c5_facade_equiv (w : World) (id : Nat) :
    Api.get_track (Api.new w) id = Track.get w id ∧
    Api.get_artist (Api.new w) id = Artist.get w id ∧
    Api.get_album (Api.new w) id = Album.get w id ∧
    Api.get_genre (Api.new w) id = Genre.get w id ∧
    Api.get_comment (Api.new w) id = Comment.get w id ∧
    Api.get_user (Api.new w) id = User.get w id ∧
    Api.get_playlist (Api.new w) id = Playlist.get w id ∧
    Api.get_editorial (Api.new w) id = Editorial.get w id ∧
    Api.get_radio (Api.new w) id = Radio.get w id ∧
    Api.get_info (Api.new w) = Info.get w ∧
    Api.get_chart (Api.new w) = Chart.get w ∧
    Api.get_options (Api.new w) = Options.get w :=
  ⟨rfl, rfl, rfl, rfl, rfl, rfl, rfl, rfl, rfl, rfl, rfl, rfl⟩

/-- C6: every fetcher URL is the fixed base root, the resource path, and
`/{id}` rendered in decimal where the resource takes an id; the singleton
resources append no id, `Info` using the path `/infos`. -/
theorem c6_urls (id : Nat) :
    get_track_api id = "https://api.deezer.com" ++ "/track" ++ "/" ++ Nat.repr id ∧
    get_artist_api id = "https://api.deezer.com" ++ "/artist" ++ "/" ++ Nat.repr id ∧
    get_album_api id = "https://api.deezer.com" ++ "/album" ++ "/" ++ Nat.repr id ∧
    get_genre_api id = "https://api.deezer.com" ++ "/genre" ++ "/" ++ Nat.repr id ∧
    get_comment_api id = "https://api.deezer.com" ++ "/comment" ++ "/" ++ Nat.repr id ∧
    get_user_api id = "https://api.deezer.com" ++ "/user" ++ "/" ++ Nat.repr id ∧
    get_playlist_api id = "https://api.deezer.com" ++ "/playlist" ++ "/" ++ Nat.repr id ∧
    get_editorial_api id = "https://api.deezer.com" ++ "/editorial" ++ "/" ++ Nat.repr id ∧
    get_radio_api id = "https://api.deezer.com" ++ "/radio" ++ "/" ++ Nat.repr id ∧
    get_chart_api = "https://api.deezer.com" ++ "/chart" ∧
    get_info_api = "https://api.deezer.com" ++ "/infos" ∧
    get_options_api = "https://api.deezer.com" ++ "/options" :=
  ⟨rfl, rfl, rfl, rfl, rfl, rfl, rfl, rfl, rfl, rfl, rfl, rfl⟩

/-- C7: every top-level fetch operation — each standalone fetcher and each
facade method — never returns a structured error value (its `isErr` is
`false` for every world): every failure panics instead.  In particular,
for the track pipeline, a transport error, a body-read error, a malformed
body and a schema-mismatched body each make the fetch panic. -/
theorem c7_failures_fatal (w : World) (api : Api) (id : Nat) :
    ((Track.get w id).isErr = false ∧ (Artist.get w id).isErr = false ∧
     (Album.get w id).isErr = false ∧ (Genre.get w id).isErr = false ∧
     (Comment.get w id).isErr = false ∧ (User.get w id).isErr = false ∧
     (Playlist.get w id).isErr = false ∧ (Editorial.get w id).isErr = false ∧
     (Radio.get w id).isErr = false ∧ (Chart.get w).isErr = false ∧
     (Info.get w).isErr = false ∧ (Options.get w).isErr = false) ∧
    ((api.get_track id).isErr = false ∧ (api.get_artist id).isErr = false ∧
     (api.get_album id).isErr = false ∧ (api.get_genre id).isErr = false ∧
     (api.get_comment id).isErr = false ∧ (api.get_user id).isErr = false ∧
     (api.get_playlist id).isErr = false ∧ (api.get_editorial id).isErr = false ∧
     (api.get_radio id).isErr = false ∧ (api.get_chart).isErr = false ∧
     (api.get_info).isErr = false ∧ (api.get_options).isErr = false) ∧
    ((w (get_track_api id) = .transportErr → Track.get w id = .panic) ∧
     (w (get_track_api id) = .textErr → Track.get w id = .panic) ∧
     (w (get_track_api id) = .body .malformed → Track.get w id = .panic) ∧
     (∀ j m, w (get_track_api id) = .body (.json j) → decodeTrack j = .err m →
        Track.get w id = .panic)) := by
  refine ⟨⟨?_, ?_, ?_, ?_, ?_, ?_, ?_, ?_, ?_, ?_, ?_, ?_⟩,
          ⟨?_, ?_, ?_, ?_, ?_, ?_, ?_, ?_, ?_, ?_, ?_, ?_⟩,
          ⟨?_, ?_, ?_, ?_⟩⟩
  · exact fetch_newOf_isErr w _ decodeTrack
  · exact fetch_newOf_isErr w _ decodeArtist
  · exact fetch_mk_isErr w _ Album.new albumNew_isErr
  · exact fetch_newOf_isErr w _ decodeGenre
  · exact fetch_newOf_isErr w _ decodeComment
  · exact fetch_newOf_isErr w _ decodeUser
  · exact fetch_newOf_isErr w _ decodePlaylist
  · exact fetch_newOf_isErr w _ decodeEditorial
  · exact fetch_newOf_isErr w _ decodeRadio
  · exact fetch_newOf_isErr w _ decodeChart
  · exact fetch_newOf_isErr w _ decodeInfo
  · exact fetch_newOf_isErr w _ decodeOptions
  · exact fetch_newOf_isErr api.client _ decodeTrack
  · exact fetch_newOf_isErr api.client _ decodeArtist
  · exact fetch_mk_isErr api.client _ Album.new albumNew_isErr
  · exact fetch_newOf_isErr api.client _ decodeGenre
  · exact fetch_newOf_isErr api.client _ decodeComment
  · exact fetch_newOf_isErr api.client _ decodeUser
  · exact fetch_newOf_isErr api.client _ decodePlaylist
  · exact fetch_newOf_isErr api.client _ decodeEditorial
  · exact fetch_newOf_isErr api.client _ decodeRadio
  · exact fetch_newOf_isErr api.client _ decodeChart
  · exact fetch_newOf_isErr api.client _ decodeInfo
  · exact fetch_newOf_isErr api.client _ decodeOptions
  · intro h; unfold Track.get fetch; rw [h]
  · intro h; unfold Track.get fetch; rw [h]
  · intro h
    unfold Track.get fetch
    rw [h]
    rfl
  · intro j m h hm
    unfold Track.get fetch
    rw [h]
    show newOf decodeTrack (.json j) = .panic
    simp [newOf, hm]

/-- Witness for C7: with a world that fails in each of the four ways on
the track URL, the fetch panics; a schema mismatch (a non-object body)
also panics. -/
theorem c7_witness :
    Track.get (fun _ => .transportErr) 912486 = .panic ∧
    Track.get (fun _ => .textErr) 912486 = .panic ∧
    Track.get (fun _ => .body .malformed) 912486 = .panic ∧
    Track.get (fun _ => .body (.json (Json.num 0))) 912486 = .panic := by
  refine ⟨?_, ?_, ?_, ?_⟩
  · exact (c7_failures_fatal (fun _ => .transportErr) (Api.new (fun _ => .transportErr)) 912486).2.2.1 rfl
  · exact (c7_failures_fatal (fun _ => .textErr) (Api.new (fun _ => .textErr)) 912486).2.2.2.1 rfl
  · exact (c7_failures_fatal (fun _ => .body .malformed) (Api.new (fun _ => .body .malformed)) 912486).2.2.2.2.1 rfl
  · exact (c7_failures_fatal (fun _ => .body (.json (Json.num 0)))
      (Api.new (fun _ => .body (.json (Json.num 0)))) 912486).2.2.2.2.2
      (Json.num 0) "invalid type: expected struct Track" rfl rfl

/-! ## The Album genre-id sentinel -/

theorem decodeAlbumF_obj {n : Nat} {j : Json} {a : Album}
    (h : decodeAlbumF n j = .ok a) : ∃ fs, j = .obj fs := by
  cases j with
  | obj fs => exact ⟨fs, rfl⟩
  | null => simp [decodeAlbumF] at h
  | bool b => simp [decodeAlbumF] at h
  | num m => simp [decodeAlbumF] at h
  | str s => simp [decodeAlbumF] at h
  | arr xs => simp [decodeAlbumF] at h

theorem decodeAlbumF_ok_genre {n : Nat} {fs : List (String × Json)} {a : Album}
    (h : decodeAlbumF n (.obj fs) = .ok a) :
    optField decodeI32 fs "genre_id" = .ok a.genre_id := by
  cases n with
  | zero => simp [decodeAlbumF] at h
  | succ n =>
    simp only [decodeAlbumF] at h
    simp only [decodeAlbumFields, Outcome.bind_eq_ok, Outcome.pure_def,
      Outcome.ok.injEq] at h
    obtain ⟨id, hid, title, htitle, upc, hupc, link, hlink, share, hshare,
      cover, hcover, cs, hcs, cm, hcm, cb, hcb, cx, hcx, gid, hgid,
      genres, hgenres, label, hlabel, nbt, hnbt, dur, hdur, fans, hfans,
      rating, hrating, rd, hrd, rt, hrt, av, hav, alt, halt, tlu, htlu,
      hel, hhel, contribs, hcontribs, artist, hartist, tracks, htracks,
      heq⟩ := h
    subst heq
    exact hgid

/-- C3: a successfully decoded `Album` document with `"genre_id": -1` has
`genre_id = none` in the constructed record, and with any other integer
`g` it has `genre_id = some g`; every other resource constructor returns
its decoded record with no post-decode adjustment at all. -/
theorem c3_album_genre_sentinel :
    (∀ (j : Json) (a : Album), Album.new (.json j) = .ok a →
        (j.get "genre_id" = some (.num (-1)) → a.genre_id = none) ∧
        (∀ g : Int, j.get "genre_id" = some (.num g) → g ≠ -1 →
            a.genre_id = some g)) ∧
    (∀ (j : Json) (v : Track), decodeTrack j = .ok v → Track.new (.json j) = .ok v) ∧
    (∀ (j : Json) (v : Artist), decodeArtist j = .ok v → Artist.new (.json j) = .ok v) ∧
    (∀ (j : Json) (v : Genre), decodeGenre j = .ok v → Genre.new (.json j) = .ok v) ∧
    (∀ (j : Json) (v : Comment), decodeComment j = .ok v → Comment.new (.json j) = .ok v) ∧
    (∀ (j : Json) (v : User), decodeUser j = .ok v → User.new (.json j) = .ok v) ∧
    (∀ (j : Json) (v : Playlist), decodePlaylist j = .ok v → Playlist.new (.json j) = .ok v) ∧
    (∀ (j : Json) (v : Editorial), decodeEditorial j = .ok v → Editorial.new (.json j) = .ok v) ∧
    (∀ (j : Json) (v : Radio), decodeRadio j = .ok v → Radio.new (.json j) = .ok v) ∧
    (∀ (j : Json) (v : Chart), decodeChart j = .ok v → Chart.new (.json j) = .ok v) ∧
    (∀ (j : Json) (v : Info), decodeInfo j = .ok v → Info.new (.json j) = .ok v) ∧
    (∀ (j : Json) (v : Options), decodeOptions j = .ok v → Options.new (.json j) = .ok v) := by
  refine ⟨?_, fun j v h => newOf_eq_ok.mpr h, fun j v h => newOf_eq_ok.mpr h,
    fun j v h => newOf_eq_ok.mpr h, fun j v h => newOf_eq_ok.mpr h,
    fun j v h => newOf_eq_ok.mpr h, fun j v h => newOf_eq_ok.mpr h,
    fun j v h => newOf_eq_ok.mpr h, fun j v h => newOf_eq_ok.mpr h,
    fun j v h => newOf_eq_ok.mpr h, fun j v h => newOf_eq_ok.mpr h,
    fun j v h => newOf_eq_ok.mpr h⟩
  intro j a h
  unfold Album.new at h
  rw [Outcome.map_eq_ok] at h
  obtain ⟨a0, h0, hfix⟩ := h
  rw [newOf_eq_ok] at h0
  unfold decodeAlbum at h0
  obtain ⟨fs, rfl⟩ := decodeAlbumF_obj h0
  have hgid := decodeAlbumF_ok_genre h0
  constructor
  · intro hget
    simp only [Json.get_obj] at hget
    have hneg : decodeI32 (Json.num (-1)) = .ok (-1) := by decide
    simp only [optField, hget, hneg, Outcome.map, Outcome.ok.injEq] at hgid
    have hg0 : a0.genre_id = some (-1) := hgid.symm
    rw [← hfix, if_pos hg0]
  · intro g hget hne
    simp only [Json.get_obj] at hget
    by_cases hr : (-2147483648 : Int) ≤ g ∧ g < 2147483648
    · have hdec : decodeI32 (Json.num g) = .ok g := by simp [decodeI32, hr]
      simp only [optField, hget, hdec, Outcome.map, Outcome.ok.injEq] at hgid
      have hg0 : a0.genre_id = some g := hgid.symm
      have hcond : ¬ a0.genre_id = some (-1) := by
        rw [hg0]
        simp [hne]
      rw [← hfix, if_neg hcond]
      exact hg0
    · have hdec : decodeI32 (Json.num g) = .err "invalid value: out of range for i32" := by
        simp [decodeI32, hr]
      simp only [optField, hget, hdec, Outcome.map] at hgid
      exact Outcome.noConfusion hgid

/-- Witness for C3: the concrete album document with `genre_id = -1`
decodes to a record with an absent genre id, and the same document with
`genre_id = 5` decodes to an explicit `some 5`. -/
theorem c3_witness :
    (c3AlbumOf (-1)).genre_id = none ∧ (c3AlbumOf 5).genre_id = some 5 := by
  have h1 : Album.new (.json (c3AlbumJson (-1))) = .ok (c3AlbumOf (-1)) := rfl
  have h2 : Album.new (.json (c3AlbumJson 5)) = .ok (c3AlbumOf 5) := rfl
  constructor
  · exact (c3_album_genre_sentinel.1 (c3AlbumJson (-1)) (c3AlbumOf (-1)) h1).1 rfl
  · exact (c3_album_genre_sentinel.1 (c3AlbumJson 5) (c3AlbumOf 5) h2).2 5 rfl (by decide)

/-! ## Defaults for conditionally present fields -/

theorem decodePlaylistTrack_ok_fields {j : Json} {v : PlaylistTrack}
    (h : decodePlaylistTrack j = .ok v) :
    ∃ fs, j = .obj fs ∧
      defField false decodeBool fs "unseen" = .ok v.unseen ∧
      defField "" decodeString fs "preview_url" = .ok v.preview_url := by
  cases j with
  | obj fs =>
    simp only [decodePlaylistTrack, Outcome.bind_eq_ok, Outcome.pure_def,
      Outcome.ok.injEq] at h
    obtain ⟨id, hid, readable, hreadable, title, htitle, ts, hts, tv, htv,
      unseen, hunseen, link, hlink, dur, hdur, rank, hrank, hel, hhel,
      purl, hpurl, addedOn, haddedOn, artist, hartist, album, halbum,
      heq⟩ := h
    subst heq
    exact ⟨fs, rfl, hunseen, hpurl⟩
  | null => simp [decodePlaylistTrack] at h
  | bool b => simp [decodePlaylistTrack] at h
  | num m => simp [decodePlaylistTrack] at h
  | str s => simp [decodePlaylistTrack] at h
  | arr xs => simp [decodePlaylistTrack] at h

theorem decodeChartPlaylist_ok_fields {j : Json} {v : ChartPlaylist}
    (h : decodeChartPlaylist j = .ok v) :
    ∃ fs, j = .obj fs ∧ defField 0 decodeU32 fs "position" = .ok v.position := by
  cases j with
  | obj fs =>
    simp only [decodeChartPlaylist, Outcome.bind_eq_ok, Outcome.pure_def,
      Outcome.ok.injEq] at h
    obtain ⟨id, hid, title, htitle, pub, hpub, link, hlink, pic, hpic,
      ps, hps, pm, hpm, pb, hpb, px, hpx, pos, hpos, user, huser, heq⟩ := h
    subst heq
    exact ⟨fs, rfl, hpos⟩
  | null => simp [decodeChartPlaylist] at h
  | bool b => simp [decodeChartPlaylist] at h
  | num m => simp [decodeChartPlaylist] at h
  | str s => simp [decodeChartPlaylist] at h
  | arr xs => simp [decodeChartPlaylist] at h

theorem decodeTrack_ok_fields {j : Json} {v : Track}
    (h : decodeTrack j = .ok v) :
    ∃ fs, j = .obj fs ∧ optField decodeBool fs "unseen" = .ok v.unseen ∧
      optField decodeString fs "preview_url" = .ok v.preview_url ∧
      optField decodeU32 fs "alternative" = .ok v.alternative_track_id := by
  cases j with
  | obj fs =>
    simp only [decodeTrack, Outcome.bind_eq_ok, Outcome.pure_def,
      Outcome.ok.injEq] at h
    obtain ⟨id, hid, readable, hreadable, title, htitle, ts, hts, tv, htv,
      unseen, hunseen, isrc, hisrc, link, hlink, share, hshare, dur, hdur,
      tpos, htpos, adn, hadn, rank, hrank, rd, hrd, hel, hhel, purl, hpurl,
      bpm, hbpm, gain, hgain, ac, hac, alt, halt, contribs, hcontribs,
      artist, hartist, album, halbum, heq⟩ := h
    subst heq
    exact ⟨fs, rfl, hunseen, hpurl, halt⟩
  | null => simp [decodeTrack] at h
  | bool b => simp [decodeTrack] at h
  | num m => simp [decodeTrack] at h
  | str s => simp [decodeTrack] at h
  | arr xs => simp [decodeTrack] at h

theorem decodeTrackArtist_ok_fields {j : Json} {v : TrackArtist}
    (h : decodeTrackArtist j = .ok v) :
    ∃ fs, j = .obj fs ∧ optField decodeU32 fs "nb_album" = .ok v.nb_album ∧
      optField decodeU32 fs "nb_fan" = .ok v.nb_fan := by
  cases j with
  | obj fs =>
    simp only [decodeTrackArtist, Outcome.bind_eq_ok, Outcome.pure_def,
      Outcome.ok.injEq] at h
    obtain ⟨id, hid, name, hname, link, hlink, share, hshare, pic, hpic,
      ps, hps, pm, hpm, pb, hpb, px, hpx, nba, hnba, nbf, hnbf, hr2, hhr,
      tl, htl, heq⟩ := h
    subst heq
    exact ⟨fs, rfl, hnba, hnbf⟩
  | null => simp [decodeTrackArtist] at h
  | bool b => simp [decodeTrackArtist] at h
  | num m => simp [decodeTrackArtist] at h
  | str s => simp [decodeTrackArtist] at h
  | arr xs => simp [decodeTrackArtist] at h

theorem decodePlaylist_ok_fields {j : Json} {v : Playlist}
    (h : decodePlaylist j = .ok v) :
    ∃ fs, j = .obj fs ∧ optField decodeU32 fs "rating" = .ok v.rating ∧
      optField decodeU32 fs "unseen_track_count" = .ok v.unseen_track_count := by
  cases j with
  | obj fs =>
    simp only [decodePlaylist, Outcome.bind_eq_ok, Outcome.pure_def,
      Outcome.ok.injEq] at h
    obtain ⟨id, hid, title, htitle, desc, hdesc, dur, hdur, pub, hpub,
      ilt, hilt, collab, hcollab, rating, hrating, nbt, hnbt, utc, hutc,
      fans, hfans, link, hlink, share, hshare, pic, hpic, ps, hps, pm, hpm,
      pb, hpb, px, hpx, cks, hcks, creator, hcreator, tracks, htracks,
      heq⟩ := h
    subst heq
    exact ⟨fs, rfl, hrating, hutc⟩
  | null => simp [decodePlaylist] at h
  | bool b => simp [decodePlaylist] at h
  | num m => simp [decodePlaylist] at h
  | str s => simp [decodePlaylist] at h
  | arr xs => simp [decodePlaylist] at h

theorem decodeChartTrack_ok_fields {j : Json} {v : ChartTrack}
    (h : decodeChartTrack j = .ok v) :
    ∃ fs, j = .obj fs ∧ optField decodeString fs "preview_url" = .ok v.preview_url := by
  cases j with
  | obj fs =>
    simp only [decodeChartTrack, Outcome.bind_eq_ok, Outcome.pure_def,
      Outcome.ok.injEq] at h
    obtain ⟨id, hid, title, htitle, ts, hts, tv, htv, link, hlink, dur, hdur,
      rank, hrank, hel, hhel, purl, hpurl, pos, hpos, artist, hartist,
      album, halbum, heq⟩ := h
    subst heq
    exact ⟨fs, rfl, hpurl⟩
  | null => simp [decodeChartTrack] at h
  | bool b => simp [decodeChartTrack] at h
  | num m => simp [decodeChartTrack] at h
  | str s => simp [decodeChartTrack] at h
  | arr xs => simp [decodeChartTrack] at h

theorem decodeUser_ok_fields {j : Json} {v : User}
    (h : decodeUser j = .ok v) :
    ∃ fs, j = .obj fs ∧
      defField "" decodeString fs "lastname" = .ok v.last_name ∧
      defField "" decodeString fs "firstname" = .ok v.first_name ∧
      defField "" decodeString fs "email" = .ok v.email ∧
      defField 0 decodeU32 fs "status" = .ok v.status ∧
      defField "" decodeString fs "birthday" = .ok v.birthday ∧
      defField "" decodeString fs "inscription_date" = .ok v.inscription_date ∧
      defField "" decodeString fs "gender" = .ok v.gender ∧
      defField "" decodeString fs "lang" = .ok v.lang ∧
      defField false decodeBool fs "is_kid" = .ok v.is_kid := by
  cases j with
  | obj fs =>
    simp only [decodeUser, Outcome.bind_eq_ok, Outcome.pure_def,
      Outcome.ok.injEq] at h
    obtain ⟨id, hid, name, hname, ln, hln, fn, hfn, email, hemail,
      status, hstatus, bd, hbd, insc, hinsc, gender, hgender, link, hlink,
      pic, hpic, ps, hps, pm, hpm, pb, hpb, px, hpx, country, hcountry,
      lang, hlang, kid, hkid, tl, htl, heq⟩ := h
    subst heq
    exact ⟨fs, rfl, hln, hfn, hemail, hstatus, hbd, hinsc, hgender, hlang, hkid⟩
  | null => simp [decodeUser] at h
  | bool b => simp [decodeUser] at h
  | num m => simp [decodeUser] at h
  | str s => simp [decodeUser] at h
  | arr xs => simp [decodeUser] at h

theorem decodeAlbumF_ok_alternative {n : Nat} {fs : List (String × Json)}
    {a : Album} (h : decodeAlbumF n (.obj fs) = .ok a)
    (hnone : lookupField fs "alternative" = none) :
    a.alternative_album = none := by
  cases n with
  | zero => simp [decodeAlbumF] at h
  | succ n =>
    simp only [decodeAlbumF] at h
    simp only [decodeAlbumFields, Outcome.bind_eq_ok, Outcome.pure_def,
      Outcome.ok.injEq] at h
    obtain ⟨id, hid, title, htitle, upc, hupc, link, hlink, share, hshare,
      cover, hcover, cs, hcs, cm, hcm, cb, hcb, cx, hcx, gid, hgid,
      genres, hgenres, label, hlabel, nbt, hnbt, dur, hdur, fans, hfans,
      rating, hrating, rd, hrd, rt, hrt, av, hav, alt, halt, tlu, htlu,
      hel, hhel, contribs, hcontribs, artist, hartist, tracks, htracks,
      heq⟩ := h
    subst heq
    rw [hnone] at halt
    simp only [Outcome.ok.injEq] at halt
    exact halt.symm

/-- C9: every field marked as conditionally present (every
`#[serde(default)]` field in the crate) decodes to its type's default when
the member is missing: `PlaylistTrack.preview_url` to the empty string and
`PlaylistTrack.unseen` to `false`; `ChartPlaylist.position` to `0`;
`Track.unseen`, `Track.preview_url` and `Track.alternative_track_id` to
`none`; `TrackArtist.nb_album` and `TrackArtist.nb_fan` to `none`;
`Playlist.rating` and `Playlist.unseen_track_count` to `none`;
`ChartTrack.preview_url` to `none`; `Album.alternative_album` to `none`;
and `User`'s nine defaulted fields (`lastname`, `firstname`, `email`,
`status`, `birthday`, `inscription_date`, `gender`, `lang`, `is_kid`) to
the empty string, zero or `false` according to their types. -/
theorem c9_conditional_field_defaults :
    (∀ (j : Json) (v : PlaylistTrack), decodePlaylistTrack j = .ok v →
        (j.get "preview_url" = none → v.preview_url = "") ∧
        (j.get "unseen" = none → v.unseen = false)) ∧
    (∀ (j : Json) (v : ChartPlaylist), decodeChartPlaylist j = .ok v →
        j.get "position" = none → v.position = 0) ∧
    (∀ (j : Json) (v : Track), decodeTrack j = .ok v →
        (j.get "unseen" = none → v.unseen = none) ∧
        (j.get "preview_url" = none → v.preview_url = none) ∧
        (j.get "alternative" = none → v.alternative_track_id = none)) ∧
    (∀ (j : Json) (v : TrackArtist), decodeTrackArtist j = .ok v →
        (j.get "nb_album" = none → v.nb_album = none) ∧
        (j.get "nb_fan" = none → v.nb_fan = none)) ∧
    (∀ (j : Json) (v : Playlist), decodePlaylist j = .ok v →
        (j.get "rating" = none → v.rating = none) ∧
        (j.get "unseen_track_count" = none → v.unseen_track_count = none)) ∧
    (∀ (j : Json) (v : ChartTrack), decodeChartTrack j = .ok v →
        j.get "preview_url" = none → v.preview_url = none) ∧
    (∀ (j : Json) (v : Album), Album.new (.json j) = .ok v →
        j.get "alternative" = none → v.alternative_album = none) ∧
    (∀ (j : Json) (v : User), decodeUser j = .ok v →
        (j.get "lastname" = none → v.last_name = "") ∧
        (j.get "firstname" = none → v.first_name = "") ∧
        (j.get "email" = none → v.email = "") ∧
        (j.get "status" = none → v.status = 0) ∧
        (j.get "birthday" = none → v.birthday = "") ∧
        (j.get "inscription_date" = none → v.inscription_date = "") ∧
        (j.get "gender" = none → v.gender = "") ∧
        (j.get "lang" = none → v.lang = "") ∧
        (j.get "is_kid" = none → v.is_kid = false)) := by
  refine ⟨fun j v h => ?_, fun j v h hget => ?_, fun j v h => ?_,
    fun j v h => ?_, fun j v h => ?_, fun j v h hget => ?_,
    fun j v h hget => ?_, fun j v h => ?_⟩
  · obtain ⟨fs, rfl, hunseen, hpurl⟩ := decodePlaylistTrack_ok_fields h
    constructor
    · intro hget
      simp only [Json.get_obj] at hget
      simp only [defField, hget, Outcome.ok.injEq] at hpurl
      exact hpurl.symm
    · intro hget
      simp only [Json.get_obj] at hget
      simp only [defField, hget, Outcome.ok.injEq] at hunseen
      exact hunseen.symm
  · obtain ⟨fs, rfl, hpos⟩ := decodeChartPlaylist_ok_fields h
    simp only [Json.get_obj] at hget
    simp only [defField, hget, Outcome.ok.injEq] at hpos
    exact hpos.symm
  · obtain ⟨fs, rfl, hunseen, hpurl, halt⟩ := decodeTrack_ok_fields h
    refine ⟨fun hget => ?_, fun hget => ?_, fun hget => ?_⟩
    · simp only [Json.get_obj] at hget
      simp only [optField, hget, Outcome.ok.injEq] at hunseen
      exact hunseen.symm
    · simp only [Json.get_obj] at hget
      simp only [optField, hget, Outcome.ok.injEq] at hpurl
      exact hpurl.symm
    · simp only [Json.get_obj] at hget
      simp only [optField, hget, Outcome.ok.injEq] at halt
      exact halt.symm
  · obtain ⟨fs, rfl, hnba, hnbf⟩ := decodeTrackArtist_ok_fields h
    refine ⟨fun hget => ?_, fun hget => ?_⟩
    · simp only [Json.get_obj] at hget
      simp only [optField, hget, Outcome.ok.injEq] at hnba
      exact hnba.symm
    · simp only [Json.get_obj] at hget
      simp only [optField, hget, Outcome.ok.injEq] at hnbf
      exact hnbf.symm
  · obtain ⟨fs, rfl, hrating, hutc⟩ := decodePlaylist_ok_fields h
    refine ⟨fun hget => ?_, fun hget => ?_⟩
    · simp only [Json.get_obj] at hget
      simp only [optField, hget, Outcome.ok.injEq] at hrating
      exact hrating.symm
    · simp only [Json.get_obj] at hget
      simp only [optField, hget, Outcome.ok.injEq] at hutc
      exact hutc.symm
  · obtain ⟨fs, rfl, hpurl⟩ := decodeChartTrack_ok_fields h
    simp only [Json.get_obj] at hget
    simp only [optField, hget, Outcome.ok.injEq] at hpurl
    exact hpurl.symm
  · unfold Album.new at h
    rw [Outcome.map_eq_ok] at h
    obtain ⟨a0, h0, hfix⟩ := h
    rw [newOf_eq_ok] at h0
    unfold decodeAlbum at h0
    obtain ⟨fs, rfl⟩ := decodeAlbumF_obj h0
    simp only [Json.get_obj] at hget
    have halt := decodeAlbumF_ok_alternative h0 hget
    rw [← hfix]
    by_cases hc : a0.genre_id = some (-1)
    · rw [if_pos hc]
      exact halt
    · rw [if_neg hc]
      exact halt
  · obtain ⟨fs, rfl, hln, hfn, hemail, hstatus, hbd, hinsc, hgender, hlang,
      hkid⟩ := decodeUser_ok_fields h
    refine ⟨fun hget => ?_, fun hget => ?_, fun hget => ?_, fun hget => ?_,
      fun hget => ?_, fun hget => ?_, fun hget => ?_, fun hget => ?_,
      fun hget => ?_⟩
    · simp only [Json.get_obj] at hget
      simp only [defField, hget, Outcome.ok.injEq] at hln
      exact hln.symm
    · simp only [Json.get_obj] at hget
      simp only [defField, hget, Outcome.ok.injEq] at hfn
      exact hfn.symm
    · simp only [Json.get_obj] at hget
      simp only [defField, hget, Outcome.ok.injEq] at hemail
      exact hemail.symm
    · simp only [Json.get_obj] at hget
      simp only [defField, hget, Outcome.ok.injEq] at hstatus
      exact hstatus.symm
    · simp only [Json.get_obj] at hget
      simp only [defField, hget, Outcome.ok.injEq] at hbd
      exact hbd.symm
    · simp only [Json.get_obj] at hget
      simp only [defField, hget, Outcome.ok.injEq] at hinsc
      exact hinsc.symm
    · simp only [Json.get_obj] at hget
      simp only [defField, hget, Outcome.ok.injEq] at hgender
      exact hgender.symm
    · simp only [Json.get_obj] at hget
      simp only [defField, hget, Outcome.ok.injEq] at hlang
      exact hlang.symm
    · simp only [Json.get_obj] at hget
      simp only [defField, hget, Outcome.ok.injEq] at hkid
      exact hkid.symm

/-- Witness for C9: complete concrete documents lacking the conditional
members decode successfully and all 21 defaulted fields take their
defaults. -/
theorem c9_witness :
    c9PlaylistTrackRec.preview_url = "" ∧ c9PlaylistTrackRec.unseen = false ∧
    c9ChartPlaylistRec.position = 0 ∧
    c9TrackRec.unseen = none ∧ c9TrackRec.preview_url = none ∧
    c9TrackRec.alternative_track_id = none ∧
    c9TrackArtistRec.nb_album = none ∧ c9TrackArtistRec.nb_fan = none ∧
    c9PlaylistRec.rating = none ∧ c9PlaylistRec.unseen_track_count = none ∧
    c9ChartTrackRec.preview_url = none ∧
    c9AlbumRec.alternative_album = none ∧
    c9UserRec.last_name = "" ∧ c9UserRec.first_name = "" ∧
    c9UserRec.email = "" ∧ c9UserRec.status = 0 ∧ c9UserRec.birthday = "" ∧
    c9UserRec.inscription_date = "" ∧ c9UserRec.gender = "" ∧
    c9UserRec.lang = "" ∧ c9UserRec.is_kid = false := by
  have h1 : decodePlaylistTrack c9PlaylistTrackJson = .ok c9PlaylistTrackRec := rfl
  have h2 : decodeChartPlaylist c9ChartPlaylistJson = .ok c9ChartPlaylistRec := rfl
  have h3 : decodeTrack c9TrackJson = .ok c9TrackRec := rfl
  have h4 : decodeTrackArtist c9TrackArtistJson = .ok c9TrackArtistRec := rfl
  have h5 : decodePlaylist c9PlaylistJson = .ok c9PlaylistRec := rfl
  have h6 : decodeChartTrack c9ChartTrackJson = .ok c9ChartTrackRec := rfl
  have h7 : Album.new (.json c9AlbumJson) = .ok c9AlbumRec := rfl
  have h8 : decodeUser c9UserJson = .ok c9UserRec := rfl
  have k1 := c9_conditional_field_defaults.1 c9PlaylistTrackJson c9PlaylistTrackRec h1
  have k2 := c9_conditional_field_defaults.2.1 c9ChartPlaylistJson c9ChartPlaylistRec h2
  have k3 := c9_conditional_field_defaults.2.2.1 c9TrackJson c9TrackRec h3
  have k4 := c9_conditional_field_defaults.2.2.2.1 c9TrackArtistJson c9TrackArtistRec h4
  have k5 := c9_conditional_field_defaults.2.2.2.2.1 c9PlaylistJson c9PlaylistRec h5
  have k6 := c9_conditional_field_defaults.2.2.2.2.2.1 c9ChartTrackJson c9ChartTrackRec h6
  have k7 := c9_conditional_field_defaults.2.2.2.2.2.2.1 c9AlbumJson c9AlbumRec h7
  have k8 := c9_conditional_field_defaults.2.2.2.2.2.2.2 c9UserJson c9UserRec h8
  exact ⟨k1.1 rfl, k1.2 rfl, k2 rfl, k3.1 rfl, k3.2.1 rfl, k3.2.2 rfl,
    k4.1 rfl, k4.2 rfl, k5.1 rfl, k5.2 rfl, k6 rfl, k7 rfl,
    k8.1 rfl, k8.2.1 rfl, k8.2.2.1 rfl, k8.2.2.2.1 rfl, k8.2.2.2.2.1 rfl,
    k8.2.2.2.2.2.1 rfl, k8.2.2.2.2.2.2.1 rfl, k8.2.2.2.2.2.2.2.1 rfl,
    k8.2.2.2.2.2.2.2.2 rfl⟩

end DeezerMeta
